import Mathlib

/-!
# Narad Muni compatibility engine (`packages/logic/naradMuni.ts`)

A shallow embedding of the scoring module and theorems about it.

Modelling conventions

* A JavaScript string is the list of its UTF-16 code units (`JSString`).
  `String.prototype.toLowerCase` is a host built-in; every function that calls it
  takes it as the explicit parameter `toLowerCase`.
* Ages and age-range bounds are integers (`Int`).  On integer-valued doubles the
  subtractions, `Math.abs`, `Math.min` and `Math.max` of `calculateAgeScore` agree
  with integer arithmetic whenever the exact result is below `2^53`; beyond that
  both sides are far past every threshold the function compares against.
  `calculateAgeScoreNumber` follows the same source lines for arbitrary doubles and
  is shown to agree with `calculateAgeScore` on integers.
* The weighted sum is evaluated in IEEE-754 binary64, as JavaScript does.  A double
  is represented by its numerator over `2^55` (`Units`); `roundBinary64` is
  round-to-nearest, ties-to-even, on such numerators.
* `console.warn` appends a line to an explicit console state.
-/

namespace NaradMuni

/-! ## Data model -/

inductive Gender where
  | Male
  | Female
  deriving DecidableEq

inductive FamilyValue where
  | Traditional
  | Moderate
  | Liberal
  deriving DecidableEq

inductive FamilyType where
  | Nuclear
  | Joint
  | Other
  deriving DecidableEq

/-- Diet enum; `NonVeg` is the source's `'Non-Veg'`. -/
inductive Diet where
  | Veg
  | NonVeg
  | Vegan
  | Eggetarian
  deriving DecidableEq

inductive SmokingDrinking where
  | No
  | Occasional
  | Yes
  deriving DecidableEq

/-- A JavaScript string: its sequence of UTF-16 code units. -/
abbrev JSString := List (Fin 65536)

structure AgeRange where
  min : Int
  max : Int
  deriving DecidableEq

structure Preferences where
  ageRange : AgeRange
  preferredLocations : Option (List JSString) := none
  preferredEducation : Option (List JSString) := none
  preferredDiet : Option (List Diet) := none
  preferredFamilyValues : Option (List FamilyValue) := none

structure Location where
  city : JSString
  state : JSString
  country : JSString

structure Education where
  degree : JSString
  field : JSString

structure Career where
  jobTitle : JSString
  incomeRange : Option JSString := none

structure Lifestyle where
  diet : Diet
  smoking : SmokingDrinking
  drinking : SmokingDrinking

structure Family where
  type : FamilyType
  values : FamilyValue

structure Profile where
  id : JSString
  name : JSString
  gender : Gender
  age : Int
  location : Location
  education : Education
  career : Career
  lifestyle : Lifestyle
  family : Family
  preferences : Option Preferences := none

inductive Level where
  | High
  | Medium
  | Low
  deriving DecidableEq

structure SymbolicIndicator where
  level : Level
  note : String

structure CategoryScores where
  age : Int
  location : Int
  educationCareer : Int
  lifestyle : Int
  familyValues : Int

structure RadarGraphData where
  labels : List String
  values : List Int

structure CompatibilityResult where
  overallScore : Int
  categoryScores : CategoryScores
  radarGraphData : RadarGraphData
  insights : List String
  symbolicIndicator : Option SymbolicIndicator
  disclaimer : String

/-- Engine options; `includeSymbolic?: boolean` may be absent. -/
structure EngineOptions where
  includeSymbolic : Option Bool := none

/-- Lines written by `console.warn`, oldest first. -/
abbrev Console := List String

/-! ## IEEE-754 binary64 on numerators over `2^55` -/

/-- A real number `n / 2^55`, held as its numerator `n`. -/
abbrev Units := Int

/-- Number of fractional bits of `Units`. -/
def unitBits : Nat := 55

/-- Index of the leading one bit of `n` (`0` for `n < 2`), with explicit fuel;
it strips 32, 8 or 1 low bits per step. -/
def bitIndexAux : Nat → Nat → Nat
  | 0, _ => 0
  | fuel + 1, n =>
    if 2 ^ 32 ≤ n then bitIndexAux fuel (n / 2 ^ 32) + 32
    else if 2 ^ 8 ≤ n then bitIndexAux fuel (n / 2 ^ 8) + 8
    else if 2 ≤ n then bitIndexAux fuel (n / 2) + 1
    else 0

/-- Index of the leading one bit: `floor (log2 n)` for `n > 0`. -/
def bitIndex (n : Nat) : Nat := bitIndexAux n n

/-- Round a magnitude to 53 significant bits, nearest, ties to even. -/
def roundMagnitude (n : Nat) : Nat :=
  let e := bitIndex n
  if e < 53 then n
  else
    let sh := e - 52
    let q := n / 2 ^ sh
    let r := n % 2 ^ sh
    let half := 2 ^ (sh - 1)
    if half < r ∨ (r = half ∧ q % 2 = 1) then (q + 1) * 2 ^ sh else q * 2 ^ sh

/-- The binary64 nearest to `n / 2^55` (ties to even), again over `2^55`.
Every numerator met here lies far inside the normal range, so neither
underflow nor overflow is modelled. -/
def roundBinary64 (n : Units) : Units :=
  Int.sign n * (roundMagnitude n.natAbs : Int)

/-- Binary64 product of an integer-valued double and a double. -/
def fmul (k : Int) (w : Units) : Units := roundBinary64 (k * w)

/-- Binary64 sum of two doubles. -/
def fadd (x y : Units) : Units := roundBinary64 (x + y)

/-- `Math.round`: the integer `floor(x + 0.5)`, computed exactly. -/
def mathRound (x : Units) : Int := (x + 2 ^ (unitBits - 1)) / 2 ^ unitBits

/-! ## Weights -/

/-- The double denoted by the literal `0.30`: `5404319552844595 * 2^-54`. -/
def WEIGHTS.AGE : Units := 10808639105689190

/-- The double denoted by the literal `0.20`: `7205759403792794 * 2^-55`. -/
def WEIGHTS.LOCATION : Units := 7205759403792794

/-- The double denoted by the literal `0.20`. -/
def WEIGHTS.EDUCATION_CAREER : Units := 7205759403792794

/-- The double denoted by the literal `0.15`: `5404319552844595 * 2^-55`. -/
def WEIGHTS.LIFESTYLE : Units := 5404319552844595

/-- The double denoted by the literal `0.15`. -/
def WEIGHTS.FAMILY_VALUES : Units := 5404319552844595

/-! ## Helper scoring functions -/

def calculateAgeScore (p1 p2 : Profile) : Int :=
  match p1.preferences with
  | some prefs =>
    if p2.age ≥ prefs.ageRange.min ∧ p2.age ≤ prefs.ageRange.max then 100
    else
      let diff : Int := min (|p2.age - prefs.ageRange.min|) (|p2.age - prefs.ageRange.max|)
      max 0 (100 - diff * 10)
  | none =>
    let gap : Int := |p1.age - p2.age|
    if gap ≤ 5 then 100
    else if gap ≤ 8 then 80
    else if gap ≤ 12 then 50
    else 20

def calculateLocationScore (toLowerCase : JSString → JSString) (p1 p2 : Profile) : Int :=
  if toLowerCase p1.location.city = toLowerCase p2.location.city then 100
  else if toLowerCase p1.location.state = toLowerCase p2.location.state then 70
  else if toLowerCase p1.location.country = toLowerCase p2.location.country then 40
  else 0

def calculateEducationCareerScore (toLowerCase : JSString → JSString) (p1 p2 : Profile) : Int :=
  let score : Int := 50
  let score : Int :=
    if toLowerCase p1.education.degree = toLowerCase p2.education.degree then score + 30
    else score
  min 100 (score + 20)

def calculateLifestyleScore (p1 p2 : Profile) : Int :=
  let score : Int := 100
  let score : Int :=
    if p1.lifestyle.diet ≠ p2.lifestyle.diet then
      if (p1.lifestyle.diet = Diet.Veg ∧ p2.lifestyle.diet = Diet.NonVeg) ∨
          (p2.lifestyle.diet = Diet.Veg ∧ p1.lifestyle.diet = Diet.NonVeg) then score - 40
      else score - 10
    else score
  let score : Int := if p1.lifestyle.smoking ≠ p2.lifestyle.smoking then score - 20 else score
  let score : Int := if p1.lifestyle.drinking ≠ p2.lifestyle.drinking then score - 20 else score
  max 0 score

def calculateFamilyValuesScore (p1 p2 : Profile) : Int :=
  if p1.family.values = p2.family.values then 100
  else if p1.family.values = FamilyValue.Moderate ∨ p2.family.values = FamilyValue.Moderate then 70
  else 30

/-! ## Symbolic layer -/

/-- JavaScript `a < b` on strings: lexicographic order on code units. -/
def jsStringLt : JSString → JSString → Bool
  | [], [] => false
  | [], _ :: _ => true
  | _ :: _, [] => false
  | a :: as, b :: bs => if a.val < b.val then true else if b.val < a.val then false else jsStringLt as bs

/-- `ToInt32`: wrap an integer into the signed 32-bit range. -/
def toInt32 (x : Int) : Int := (x + 2 ^ 31) % 2 ^ 32 - 2 ^ 31

/-- One iteration of the hash loop: `hash = ((hash << 5) - hash) + c; hash |= 0`. -/
def hashStep (hash : Int) (c : Fin 65536) : Int :=
  toInt32 ((toInt32 (toInt32 hash * 2 ^ 5) - hash) + (c.val : Int))

/-- The loop over `combined`, starting from `hash = 0`. -/
def hashLoop (combined : JSString) : Int := combined.foldl hashStep 0

def getSymbolicCompatibility (id1 id2 : JSString) : SymbolicIndicator :=
  let combined := if jsStringLt id1 id2 then id1 ++ id2 else id2 ++ id1
  let hash := hashLoop combined
  let normalized : Int := |hash| % 100
  if normalized > 66 then
    { level := Level.High, note := "Symbolic indicators suggest a harmonious connection." }
  else if normalized > 33 then
    { level := Level.Medium, note := "Symbolic indicators suggest a balanced connection." }
  else
    { level := Level.Low, note := "Symbolic indicators suggest effort is needed for harmony." }

/-! ## Templates -/

def getInsight (category : String) (score : Int) : String :=
  if score > 80 then "Strong alignment in " ++ category ++ "."
  else if score > 50 then "Moderate compatibility in " ++ category ++ "."
  else "Differing viewpoints in " ++ category ++ "."

/-! ## Main export -/

/-- The weighted sum of step 3, evaluated left to right in binary64. -/
def weightedSum (ageScore locationScore eduScore lifestyleScore familyScore : Int) : Units :=
  fadd (fadd (fadd (fadd (fmul ageScore WEIGHTS.AGE) (fmul locationScore WEIGHTS.LOCATION))
    (fmul eduScore WEIGHTS.EDUCATION_CAREER))
    (fmul lifestyleScore WEIGHTS.LIFESTYLE))
    (fmul familyScore WEIGHTS.FAMILY_VALUES)

/-- The engine.  `options = none` is an omitted third argument (default `{}`).
Returns the result (`none` for JavaScript `null`) and the console afterwards. -/
def generateNaradMuniCompatibility (toLowerCase : JSString → JSString)
    (myProfile candidateProfile : Profile) (options : Option EngineOptions)
    (console : Console) : Option CompatibilityResult × Console :=
  let options : EngineOptions := options.getD {}
  if myProfile.gender = candidateProfile.gender then
    (none, console ++ ["NaradMuni: Same gender matching is not supported."])
  else
    let ageScore := calculateAgeScore myProfile candidateProfile
    let locationScore := calculateLocationScore toLowerCase myProfile candidateProfile
    let eduScore := calculateEducationCareerScore toLowerCase myProfile candidateProfile
    let lifestyleScore := calculateLifestyleScore myProfile candidateProfile
    let familyScore := calculateFamilyValuesScore myProfile candidateProfile
    let overall := weightedSum ageScore locationScore eduScore lifestyleScore familyScore
    let overallRounded := mathRound overall
    let insights := [
      getInsight "family values" familyScore,
      getInsight "lifestyle preferences" lifestyleScore,
      getInsight "life goals" eduScore ]
    let symbolicIndicator : Option SymbolicIndicator :=
      if options.includeSymbolic = some true then
        some (getSymbolicCompatibility myProfile.id candidateProfile.id)
      else none
    (some {
      overallScore := overallRounded
      categoryScores := {
        age := ageScore
        location := locationScore
        educationCareer := eduScore
        lifestyle := lifestyleScore
        familyValues := familyScore }
      radarGraphData := {
        labels := ["Age", "Location", "Career", "Lifestyle", "Family"]
        values := [ageScore, locationScore, eduScore, lifestyleScore, familyScore] }
      insights := insights
      symbolicIndicator := symbolicIndicator
      disclaimer := "This compatibility insight is for informational purposes only and does not constitute medical, legal, or predictive advice." },
     console)

/-! ## Value tables and sample inputs -/

/-- Every value `calculateAgeScore` can return. -/
def ageScoreValues : List Int := [0, 10, 20, 30, 40, 50, 60, 70, 80, 90, 100]

/-- Every value `calculateLocationScore` can return. -/
def locationScoreValues : List Int := [0, 40, 70, 100]

/-- Every value `calculateEducationCareerScore` can return. -/
def educationCareerScoreValues : List Int := [70, 100]

/-- Every value `calculateLifestyleScore` can return. -/
def lifestyleScoreValues : List Int := [20, 40, 50, 60, 70, 80, 90, 100]

/-- Every value `calculateFamilyValuesScore` can return. -/
def familyValuesScoreValues : List Int := [30, 70, 100]

/-- The weighted sum in exact arithmetic, rounded half up:
`floor ((30a + 20l + 20e + 15s + 15f + 50) / 100)`. -/
def exactRoundedScore (a l e s f : Int) : Int :=
  (30 * a + 20 * l + 20 * e + 15 * s + 15 * f + 50) / 100

/-- The code units of a text without astral characters. -/
def jsString (s : String) : JSString := s.toList.map fun ch => Fin.ofNat ch.toNat

/-- A lower-casing that maps `A`..`Z` to `a`..`z` and leaves every other code unit
alone; it agrees with `toLowerCase` on ASCII text and instantiates the examples. -/
def asciiToLowerCase (s : JSString) : JSString :=
  s.map fun c => if 65 ≤ c.val ∧ c.val ≤ 90 then c + 32 else c

/-- Sample subject: male, 30, Pune, no preferences. -/
def sampleSubject : Profile :=
  { id := jsString "u-arjun", name := jsString "Arjun", gender := Gender.Male, age := 30
    location := { city := jsString "Pune", state := jsString "Maharashtra", country := jsString "India" }
    education := { degree := jsString "MBA", field := jsString "Finance" }
    career := { jobTitle := jsString "Analyst" }
    lifestyle := { diet := Diet.Veg, smoking := SmokingDrinking.No, drinking := SmokingDrinking.No }
    family := { type := FamilyType.Nuclear, values := FamilyValue.Traditional } }

/-- Sample candidate: female, 33, Mumbai, no preferences. -/
def sampleCandidate : Profile :=
  { id := jsString "u-meera", name := jsString "Meera", gender := Gender.Female, age := 33
    location := { city := jsString "Mumbai", state := jsString "MAHARASHTRA", country := jsString "India" }
    education := { degree := jsString "mba", field := jsString "Marketing" }
    career := { jobTitle := jsString "Manager" }
    lifestyle := { diet := Diet.NonVeg, smoking := SmokingDrinking.No, drinking := SmokingDrinking.Occasional }
    family := { type := FamilyType.Joint, values := FamilyValue.Liberal } }

/-- The age range `{min: 30, max: 35}` with no other preference. -/
def range30to35 : Preferences := { ageRange := { min := 30, max := 35 } }

/-- Subject A of the asymmetry scenario, aged 30, with `ageRange = {30, 35}`. -/
def scenarioA : Profile := { sampleSubject with preferences := some range30to35 }

/-- Candidate B of the asymmetry scenario: age 40, no preferences. -/
def scenarioB : Profile := { sampleCandidate with age := 40 }

/-- Subject of the end-to-end scenario: male, 30, no preferences. -/
def scenarioGroom : Profile := sampleSubject

/-- Candidate of the end-to-end scenario: female, 33, same city, degree, diet,
smoking and drinking values as the subject, family values Traditional. -/
def scenarioBride : Profile :=
  { sampleSubject with
    id := jsString "u-kavya", name := jsString "Kavya", gender := Gender.Female, age := 33
    career := { jobTitle := jsString "Architect" } }

/-- Subject A of the asymmetry witness: aged 33, with `ageRange = {30, 35}`. -/
def asymmetryA : Profile := { scenarioA with age := 33 }

/-- A candidate as far from `scenarioA` as the scorers can tell: aged 50, another city,
state and country, another degree, Non-Veg, smoking, drinking, Liberal. -/
def farCandidate : Profile :=
  { id := jsString "u-zoe", name := jsString "Zoe", gender := Gender.Female, age := 50
    location := { city := jsString "Austin", state := jsString "Texas", country := jsString "USA" }
    education := { degree := jsString "PhD", field := jsString "Physics" }
    career := { jobTitle := jsString "Researcher" }
    lifestyle := { diet := Diet.NonVeg, smoking := SmokingDrinking.Yes, drinking := SmokingDrinking.Yes }
    family := { type := FamilyType.Nuclear, values := FamilyValue.Liberal } }

/-! ## Ages and bounds as arbitrary numbers

`Profile.age` and `AgeRange` hold integers, as the data model of the spec has them.
The TypeScript type is `number`; the definitions below follow the same source lines
for arbitrary finite doubles, a double being the dyadic rational `num / 2^scale`. -/

/-- A finite double inside the normal range, as the dyadic rational `num / 2^scale`. -/
structure JSNumber where
  num : Int
  scale : Nat

/-- The double holding an integer. -/
def JSNumber.ofInt (k : Int) : JSNumber := { num := k, scale := 0 }

/-- Round a dyadic rational to the nearest double (ties to even). -/
def JSNumber.round (x : JSNumber) : JSNumber := { num := roundBinary64 x.num, scale := x.scale }

/-- The numerator of `x` over `2^scale`, for `scale` at least the scale of `x`. -/
def JSNumber.numAt (x : JSNumber) (scale : Nat) : Int := x.num * 2 ^ (scale - x.scale)

/-- Binary64 `x - y`. -/
def JSNumber.sub (x y : JSNumber) : JSNumber :=
  JSNumber.round
    { num := x.numAt (Nat.max x.scale y.scale) - y.numAt (Nat.max x.scale y.scale)
      scale := Nat.max x.scale y.scale }

/-- Binary64 `x + y`. -/
def JSNumber.add (x y : JSNumber) : JSNumber :=
  JSNumber.round
    { num := x.numAt (Nat.max x.scale y.scale) + y.numAt (Nat.max x.scale y.scale)
      scale := Nat.max x.scale y.scale }

/-- Binary64 `x * y`. -/
def JSNumber.mul (x y : JSNumber) : JSNumber :=
  JSNumber.round { num := x.num * y.num, scale := x.scale + y.scale }

/-- `Math.abs`. -/
def JSNumber.abs (x : JSNumber) : JSNumber := { num := |x.num|, scale := x.scale }

/-- The comparison `x <= y`. -/
def JSNumber.le (x y : JSNumber) : Bool :=
  decide (x.numAt (Nat.max x.scale y.scale) ≤ y.numAt (Nat.max x.scale y.scale))

/-- `Math.min`. -/
def JSNumber.min (x y : JSNumber) : JSNumber := if JSNumber.le x y then x else y

/-- `Math.max`. -/
def JSNumber.max (x y : JSNumber) : JSNumber := if JSNumber.le x y then y else x

/-- `Math.round`: the integer `floor (x + 1/2)`. -/
def JSNumber.mathRound (x : JSNumber) : Int := (2 * x.num + 2 ^ x.scale) / 2 ^ (x.scale + 1)

/-- An age range whose bounds are arbitrary numbers. -/
structure AgeRangeNumber where
  min : JSNumber
  max : JSNumber

/-- `calculateAgeScore` for a subject aged `p1Age` with the age range `p1AgeRange`
(`none` without preferences) and a candidate aged `p2Age`. -/
def calculateAgeScoreNumber (p1Age : JSNumber) (p1AgeRange : Option AgeRangeNumber)
    (p2Age : JSNumber) : JSNumber :=
  match p1AgeRange with
  | some ageRange =>
    if JSNumber.le ageRange.min p2Age ∧ JSNumber.le p2Age ageRange.max then JSNumber.ofInt 100
    else
      let diff := JSNumber.min (JSNumber.abs (JSNumber.sub p2Age ageRange.min))
        (JSNumber.abs (JSNumber.sub p2Age ageRange.max))
      JSNumber.max (JSNumber.ofInt 0)
        (JSNumber.sub (JSNumber.ofInt 100) (JSNumber.mul diff (JSNumber.ofInt 10)))
  | none =>
    let gap := JSNumber.abs (JSNumber.sub p1Age p2Age)
    if JSNumber.le gap (JSNumber.ofInt 5) then JSNumber.ofInt 100
    else if JSNumber.le gap (JSNumber.ofInt 8) then JSNumber.ofInt 80
    else if JSNumber.le gap (JSNumber.ofInt 12) then JSNumber.ofInt 50
    else JSNumber.ofInt 20

/-- The weighted sum of step 3 with a number-valued age score. -/
def weightedSumNumber (ageScore : JSNumber)
    (locationScore eduScore lifestyleScore familyScore : Int) : JSNumber :=
  JSNumber.add (JSNumber.add (JSNumber.add (JSNumber.add
    (JSNumber.mul ageScore { num := WEIGHTS.AGE, scale := unitBits })
    (JSNumber.mul (JSNumber.ofInt locationScore) { num := WEIGHTS.LOCATION, scale := unitBits }))
    (JSNumber.mul (JSNumber.ofInt eduScore)
      { num := WEIGHTS.EDUCATION_CAREER, scale := unitBits }))
    (JSNumber.mul (JSNumber.ofInt lifestyleScore) { num := WEIGHTS.LIFESTYLE, scale := unitBits }))
    (JSNumber.mul (JSNumber.ofInt familyScore)
      { num := WEIGHTS.FAMILY_VALUES, scale := unitBits })

/-- Steps 2 and 3 of the engine for a pair whose ages and age-range bounds are the
given numbers (the `age` and `ageRange` fields of the two records are not read): the
returned age score and `overallScore`. -/
def ageAndOverallScoreNumber (toLowerCase : JSString → JSString)
    (myProfile candidateProfile : Profile) (myAge : JSNumber)
    (myAgeRange : Option AgeRangeNumber) (candidateAge : JSNumber) : JSNumber × Int :=
  let ageScore := calculateAgeScoreNumber myAge myAgeRange candidateAge
  let locationScore := calculateLocationScore toLowerCase myProfile candidateProfile
  let eduScore := calculateEducationCareerScore toLowerCase myProfile candidateProfile
  let lifestyleScore := calculateLifestyleScore myProfile candidateProfile
  let familyScore := calculateFamilyValuesScore myProfile candidateProfile
  let overall := weightedSumNumber ageScore locationScore eduScore lifestyleScore familyScore
  (ageScore, JSNumber.mathRound overall)

/-- Exact half-up rounding of the weighted sum with a number-valued age score:
`floor ((30a + 20l + 20e + 15s + 15f + 50) / 100)`. -/
def exactRoundedScoreNumber (a : JSNumber) (l e s f : Int) : Int :=
  (30 * a.num + (20 * l + 20 * e + 15 * s + 15 * f + 50) * 2 ^ a.scale) / (100 * 2 ^ a.scale)

/-- The double that `30 + 1/6` evaluates to: `8491161797438123 / 2^48`. -/
def thirtyAndOneSixth : JSNumber := { num := 8491161797438123, scale := 48 }

/-- The age range `{min: 30 + 1/6, max: 35}`. -/
def fractionalRange : AgeRangeNumber := { min := thirtyAndOneSixth, max := JSNumber.ofInt 35 }

/-! ## The rolling hash as specified -/

/-- The specified step of the rolling hash: `(hash * 31 + charCode) mod 2^32`. -/
def specHashStep (hash : Nat) (c : Fin 65536) : Nat := (hash * 31 + c.val) % 2 ^ 32

/-- An unsigned 32-bit value read as a signed 32-bit integer (two's complement). -/
def asSigned32 (u : Nat) : Int := if u < 2 ^ 31 then (u : Int) else (u : Int) - 2 ^ 32

/-- The specified rolling hash of a string: the left fold of `specHashStep` from `0`,
read as a signed 32-bit integer. -/
def specRollingHash (s : JSString) : Int := asSigned32 (s.foldl specHashStep 0)

end NaradMuni

/-!
# Image rules (`packages/logic/src/media/imageLogic.ts`)

`generateImageHash` wraps the external SparkMD5 library in a promise; the functions
below take the resolved hash as the parameter `generateImageHash`.  A JavaScript
`Set` of strings is held as the list of its elements in insertion order.
-/

namespace ImageLogic

open NaradMuni (JSString jsString)

/-- `IMAGE_RULES.MIN_COUNT`. -/
def IMAGE_RULES.MIN_COUNT : Nat := 4

/-- `IMAGE_RULES.MAX_COUNT`. -/
def IMAGE_RULES.MAX_COUNT : Nat := 8

/-- An image handed to the validator; `Blob` is the host's binary-object type. -/
structure ImageFile (Blob : Type) where
  uri : JSString
  blob : Option Blob := none
  base64 : Option JSString := none
  size : Int
  width : Option Int := none
  height : Option Int := none

structure ValidationResult where
  isValid : Bool
  errors : List String

/-- Validates the set of images against the count rules. -/
def validateImageSet {Blob : Type} (images : List (ImageFile Blob)) : ValidationResult :=
  let errors : List String := []
  let errors : List String :=
    if images.length < IMAGE_RULES.MIN_COUNT then
      errors ++ ["Minimum " ++ toString IMAGE_RULES.MIN_COUNT ++ " images required."]
    else errors
  let errors : List String :=
    if images.length > IMAGE_RULES.MAX_COUNT then
      errors ++ ["Maximum " ++ toString IMAGE_RULES.MAX_COUNT ++ " images allowed."]
    else errors
  { isValid := errors.length == 0, errors := errors }

/-- The three accumulators of the loop in `detectDuplicates`. -/
structure DetectState where
  duplicates : List Nat
  generatedHashes : List JSString
  currentHashes : List JSString

/-- The value `detectDuplicates` resolves to. -/
structure DetectResult where
  duplicates : List Nat
  newHashes : List JSString

/-- The loop `for (let i = 0; i < newImages.length; i++)` from index `i` on, over
the images not yet visited. -/
def detectLoop {Image : Type} (generateImageHash : Image → JSString) :
    List Image → Nat → DetectState → DetectState
  | [], _, st => st
  | img :: rest, i, st =>
    let hash := generateImageHash img
    if hash ∈ st.currentHashes then
      detectLoop generateImageHash rest (i + 1)
        { st with duplicates := st.duplicates ++ [i] }
    else
      detectLoop generateImageHash rest (i + 1)
        { st with
          currentHashes := st.currentHashes ++ [hash]
          generatedHashes := st.generatedHashes ++ [hash] }

/-- Checks for duplicates in a new list of images against existing ones. -/
def detectDuplicates {Image : Type} (generateImageHash : Image → JSString)
    (newImages : List Image) (existingHashes : List JSString) : DetectResult :=
  let st := detectLoop generateImageHash newImages 0
    { duplicates := [], generatedHashes := [], currentHashes := existingHashes }
  { duplicates := st.duplicates, newHashes := st.generatedHashes }

/-- Index `k` of `images` is a duplicate: its hash is among `existingHashes` or
equals the hash of an earlier image. -/
def IsDuplicateAt {Image : Type} (generateImageHash : Image → JSString)
    (existingHashes : List JSString) (images : List Image) (k : Nat) : Prop :=
  ∃ img, images[k]? = some img ∧
    (generateImageHash img ∈ existingHashes ∨
      ∃ j, j < k ∧ ∃ earlier, images[j]? = some earlier ∧
        generateImageHash earlier = generateImageHash img)

/-- What holds of the accumulators once the images of `visited` are processed. -/
structure DetectInvariant {Image : Type} (generateImageHash : Image → JSString)
    (existingHashes : List JSString) (visited : List Image) (st : DetectState) : Prop where
  current : ∀ x, x ∈ st.currentHashes ↔
    x ∈ existingHashes ∨ x ∈ visited.map generateImageHash
  dups : ∀ k, k ∈ st.duplicates ↔ IsDuplicateAt generateImageHash existingHashes visited k
  gen : st.generatedHashes =
    (visited.enum.filter fun p => decide (p.1 ∉ st.duplicates)).map
      fun p => generateImageHash p.2
  sorted : st.duplicates.Pairwise (· < ·)
  nodup : st.generatedHashes.Nodup
  fresh : ∀ x ∈ st.generatedHashes, x ∉ existingHashes
  len : st.duplicates.length + st.generatedHashes.length = visited.length

/-- A sample content hash for examples: the image itself (images given as strings). -/
def sampleImageHash (image : JSString) : JSString := image

end ImageLogic

/-!
# Chat service (`packages/services/src/chat/chatService.ts`)

The Firestore collections are explicit state.  Document ids handed out by `addDoc`,
`Date.now()` and the server timestamps are parameters of each call; a query returns
its documents in collection order; failures of the backend itself are not modelled.
-/

namespace ChatService

open NaradMuni (JSString jsString jsStringLt)

/-- `CHAT_CONSTANTS.MAX_MESSAGE_LENGTH`. -/
def CHAT_CONSTANTS.MAX_MESSAGE_LENGTH : Nat := 500

/-- A document of the `chats` collection: its id and the `Chat` fields; `chatId` is
absent until `updateDoc` writes it. -/
structure ChatDoc where
  id : JSString
  chatId : Option JSString
  userIds : List JSString
  createdAt : Int
  lastMessage : JSString
  lastMessageAt : Int
  isActive : Bool

/-- A document of the `messages` collection. -/
structure MessageDoc where
  id : JSString
  chatId : JSString
  senderId : JSString
  text : JSString
  createdAt : Int
  isRead : Bool

/-- The two collections the service reads and writes. -/
structure Store where
  chats : List ChatDoc
  messages : List MessageDoc

/-- `[userA, userB].sort()`: the default sort orders strings by code units. -/
def sortedIds (userA userB : JSString) : List JSString :=
  if jsStringLt userB userA then [userB, userA] else [userA, userB]

/-- `updateDoc(docRef, { chatId: docRef.id })` on one document: the document with
the given id gets its `chatId` field, any other is left alone. -/
def setChatId (docId : JSString) (c : ChatDoc) : ChatDoc :=
  if c.id = docId then { c with chatId := some docId } else c

/-- The `chatData` of a new chat, under the document id `addDoc` gives it. -/
def newChat (autoId : JSString) (sorted : List JSString) (now1 now2 : Int) : ChatDoc :=
  { id := autoId, chatId := none, userIds := sorted, createdAt := now1
    lastMessage := [], lastMessageAt := now2, isActive := true }

/-- Creates a chat between two users unless one exists.  Returns the chat id and the
store afterwards. -/
def createChatIfMutualInterest (store : Store) (userA userB : JSString)
    (autoId : JSString) (now1 now2 : Int) : JSString × Store :=
  let sorted := sortedIds userA userB
  let snapshot := store.chats.filter fun c => decide (c.userIds = sorted)
  match snapshot with
  | first :: _ => (first.id, store)
  | [] =>
    let chatData : ChatDoc := newChat autoId sorted now1 now2
    let added : List ChatDoc := store.chats ++ [chatData]
    let updated : List ChatDoc := added.map (setChatId autoId)
    (autoId, { store with chats := updated })

/-- Sends a text message.  Returns the thrown error message, if any, and the store
afterwards. -/
def sendMessage (store : Store) (chatId senderId text : JSString)
    (autoId : JSString) (serverTime1 serverTime2 : Int) : Except String Unit × Store :=
  if text.length > CHAT_CONSTANTS.MAX_MESSAGE_LENGTH then
    (Except.error ("Message exceeds " ++ toString CHAT_CONSTANTS.MAX_MESSAGE_LENGTH
      ++ " characters."), store)
  else
    match store.chats.find? fun c => decide (c.id = chatId) with
    | none => (Except.error "Chat does not exist.", store)
    | some chatData =>
      if !chatData.isActive then (Except.error "Chat is not active.", store)
      else
        let messageData : MessageDoc :=
          { id := autoId, chatId := chatId, senderId := senderId, text := text
            createdAt := serverTime1, isRead := false }
        let messages := store.messages ++ [messageData]
        let chats := store.chats.map fun c =>
          if c.id = chatId then { c with lastMessage := text, lastMessageAt := serverTime2 }
          else c
        (Except.ok (), { chats := chats, messages := messages })

/-- Number of chats stored for the pair of users. -/
def chatsFor (store : Store) (userA userB : JSString) : Nat :=
  (store.chats.filter fun c => decide (c.userIds = sortedIds userA userB)).length

/-- No list of user ids is carried by two chats of the collection. -/
def NoDuplicateChats (store : Store) : Prop :=
  ∀ ids : List JSString, (store.chats.filter fun c => decide (c.userIds = ids)).length ≤ 1

/-- The stores the service builds from empty collections by its two writing operations. -/
inductive Reachable : Store → Prop where
  | empty : Reachable { chats := [], messages := [] }
  | create (store : Store) (userA userB autoId : JSString) (now1 now2 : Int) :
      Reachable store →
      Reachable (createChatIfMutualInterest store userA userB autoId now1 now2).2
  | send (store : Store) (chatId senderId text autoId : JSString)
      (serverTime1 serverTime2 : Int) :
      Reachable store →
      Reachable (sendMessage store chatId senderId text autoId serverTime1 serverTime2).2

/-- A chat between `u-arjun` and `u-meera` with the given document id. -/
def sampleChat (id : String) : ChatDoc :=
  { id := jsString id, chatId := some (jsString id)
    userIds := [jsString "u-arjun", jsString "u-meera"], createdAt := 0
    lastMessage := [], lastMessageAt := 0, isActive := true }

/-- A store that already holds two chats for the same pair. -/
def doubledStore : Store :=
  { chats := [sampleChat "c1", sampleChat "c2"], messages := [] }

/-- A store with one active chat and no messages. -/
def oneChatStore : Store := { chats := [sampleChat "c1"], messages := [] }

end ChatService

/-!
# Admin functions (`firebase/functions/src/index.js`)

The callable context carries the caller's uid and the `role` custom claim of the ID
token (absent, or a string).  Firestore and the custom claims are explicit state;
server timestamps are parameters; console output is left out.
-/

namespace AdminFunctions

open NaradMuni (JSString jsString)

/-- A `functions.https.HttpsError`. -/
structure HttpsError where
  code : String
  message : String
  deriving DecidableEq

structure Token where
  role : Option JSString

structure Auth where
  uid : JSString
  token : Token

/-- The context of a callable function; `auth` is absent for an anonymous call. -/
structure CallableContext where
  auth : Option Auth

/-- A document of the `users` collection. -/
structure UserDoc where
  uid : JSString
  email : JSString
  role : JSString
  isProfileComplete : Bool
  approvalStatus : JSString
  createdAt : Int
  updatedAt : Int
  approvedAt : Option Int := none
  approvedBy : Option JSString := none
  rejectionReason : Option JSString := none
  rejectedAt : Option Int := none
  rejectedBy : Option JSString := none
  isSuspended : Option Bool := none
  suspendedAt : Option Int := none
  suspendedBy : Option JSString := none
  suspensionDuration : Option Int := none

/-- An entry of the `adminLogs` collection. -/
structure AdminLog where
  adminId : JSString
  actionType : String
  targetId : JSString
  timestamp : Int
  metadata : List (String × JSString)

/-- Custom claims per uid, the `users` collection and the `adminLogs` collection. -/
structure Db where
  claims : List (JSString × JSString)
  users : List UserDoc
  adminLogs : List AdminLog

/-- Auth trigger on signup: sets the custom claim `role: 'user'` and creates the user
document. -/
def setDefaultUserRoleOnSignup (db : Db) (uid email : JSString) (now1 now2 : Int) : Db :=
  { db with
    claims := (uid, jsString "user") :: db.claims.filter fun c => decide (c.1 ≠ uid)
    users := { uid := uid, email := email, role := jsString "user"
               isProfileComplete := false, approvalStatus := jsString "pending"
               createdAt := now1, updatedAt := now2 }
      :: db.users.filter fun u => decide (u.uid ≠ uid) }

/-- The context of a call made by the signed-in user `uid`: the token carries that
user's custom claim. -/
def contextOf (db : Db) (uid : JSString) : CallableContext :=
  { auth := some { uid := uid, token := { role := (db.claims.find? fun c => decide (c.1 = uid)).map Prod.snd } } }

/-- Returns the caller's uid or throws. `!role` holds for an absent or empty role. -/
def verifyAdminRole (context : CallableContext) (requiredRole : JSString) :
    Except HttpsError JSString :=
  match context.auth with
  | none => Except.error { code := "unauthenticated", message := "User must be logged in." }
  | some auth =>
    match auth.token.role with
    | none => Except.error { code := "permission-denied", message := "No admin role found." }
    | some role =>
      if role = [] then
        Except.error { code := "permission-denied", message := "No admin role found." }
      else if requiredRole = jsString "primary_admin" ∧ role ≠ jsString "primary_admin" then
        Except.error { code := "permission-denied", message := "Requires Primary Admin role." }
      else Except.ok auth.uid

/-- `db.collection('adminLogs').add(logEntry)`. -/
def logAdminAction (db : Db) (adminId : JSString) (actionType : String)
    (targetId : JSString) (metadata : List (String × JSString)) (now : Int) : Db :=
  { db with adminLogs := db.adminLogs ++
      [{ adminId := adminId, actionType := actionType, targetId := targetId
         timestamp := now, metadata := metadata }] }

/-- `db.collection('users').doc(userId).update(...)`: `none` when the document does
not exist (the update is rejected). -/
def updateUser (db : Db) (userId : JSString) (change : UserDoc → UserDoc) : Option Db :=
  if db.users.any fun u => decide (u.uid = userId) then
    some { db with users := db.users.map fun u => if u.uid = userId then change u else u }
  else none

/-- What a callable does when a step after the role check fails: an uncaught
exception reaches the client as an `internal` error. -/
def internalError : HttpsError := { code := "internal", message := "INTERNAL" }

/-- Approve User Profile.  Returns `success` or the error, and the database afterwards. -/
def approveUserProfile (db : Db) (userId : JSString) (context : CallableContext)
    (now1 now2 : Int) : Except HttpsError Bool × Db :=
  match verifyAdminRole context (jsString "any") with
  | Except.error e => (Except.error e, db)
  | Except.ok callerUid =>
    match updateUser db userId fun u =>
        { u with approvalStatus := jsString "approved", approvedAt := some now1
                 approvedBy := some callerUid } with
    | none => (Except.error internalError, db)
    | some db1 =>
      (Except.ok true, logAdminAction db1 callerUid "APPROVE_USER" userId [] now2)

/-- Reject User Profile. -/
def rejectUserProfile (db : Db) (userId reason : JSString) (context : CallableContext)
    (now1 now2 : Int) : Except HttpsError Bool × Db :=
  match verifyAdminRole context (jsString "any") with
  | Except.error e => (Except.error e, db)
  | Except.ok callerUid =>
    match updateUser db userId fun u =>
        { u with approvalStatus := jsString "rejected", rejectionReason := some reason
                 rejectedAt := some now1, rejectedBy := some callerUid } with
    | none => (Except.error internalError, db)
    | some db1 =>
      (Except.ok true,
        logAdminAction db1 callerUid "REJECT_USER" userId [("reason", reason)] now2)

/-- Suspend User. -/
def suspendUser (db : Db) (userId : JSString) (duration : Int) (context : CallableContext)
    (now1 now2 : Int) : Except HttpsError Bool × Db :=
  match verifyAdminRole context (jsString "any") with
  | Except.error e => (Except.error e, db)
  | Except.ok callerUid =>
    match updateUser db userId fun u =>
        { u with isSuspended := some true, suspendedAt := some now1
                 suspendedBy := some callerUid, suspensionDuration := some duration } with
    | none => (Except.error internalError, db)
    | some db1 =>
      (Except.ok true,
        logAdminAction db1 callerUid "SUSPEND_USER" userId
          [("duration", jsString (toString duration))] now2)

/-- A caller authenticated as `uid` whose token carries `role`. -/
def callerWithRole (uid role : String) : CallableContext :=
  { auth := some { uid := jsString uid, token := { role := some (jsString role) } } }

/-- Two accounts created by signup, `victim` then `mallory`, and nothing else. -/
def twoSignups : Db :=
  setDefaultUserRoleOnSignup
    (setDefaultUserRoleOnSignup { claims := [], users := [], adminLogs := [] }
      (jsString "victim") (jsString "v@example.org") 1 1)
    (jsString "mallory") (jsString "m@example.org") 2 2

end AdminFunctions

namespace NaradMuni

/-! ## The binary64 model: sanity lemmas -/

/-- Stripping `c` low bits lowers the leading-bit index by `c`. -/
theorem bracket_of_div_pow (n k c : Nat)
    (h : 2 ^ k ≤ n / 2 ^ c ∧ n / 2 ^ c < 2 ^ (k + 1)) :
    2 ^ (k + c) ≤ n ∧ n < 2 ^ (k + c + 1) := by
  have hc : 0 < 2 ^ c := by positivity
  obtain ⟨hlo, hhi⟩ := h
  constructor
  · rw [pow_add]
    exact (Nat.le_div_iff_mul_le hc).mp hlo
  · have e : 2 ^ (k + c + 1) = 2 ^ (k + 1) * 2 ^ c := by
      rw [← pow_add]
      congr 1
      omega
    rw [e]
    exact (Nat.div_lt_iff_lt_mul hc).mp hhi

/-- The leading-bit index brackets its argument: `2^e ≤ n < 2^(e+1)`. -/
theorem bitIndexAux_spec (fuel : Nat) : ∀ n : Nat, n ≤ fuel → 0 < n →
    2 ^ bitIndexAux fuel n ≤ n ∧ n < 2 ^ (bitIndexAux fuel n + 1) := by
  induction fuel with
  | zero => intro n h0 hpos; omega
  | succ k ih =>
    intro n hn hpos
    have step : ∀ c : Nat, 0 < c → 2 ^ c ≤ n →
        2 ^ (bitIndexAux k (n / 2 ^ c) + c) ≤ n ∧
        n < 2 ^ (bitIndexAux k (n / 2 ^ c) + c + 1) := by
      intro c hc hle
      have hpc : 0 < 2 ^ c := by positivity
      have h2 : 2 ≤ 2 ^ c := by
        calc 2 = 2 ^ 1 := by norm_num
          _ ≤ 2 ^ c := Nat.pow_le_pow_right (by norm_num) hc
      have hdpos : 0 < n / 2 ^ c := Nat.div_pos hle hpc
      have hdlt : n / 2 ^ c < n := Nat.div_lt_self hpos h2
      exact bracket_of_div_pow n _ c (ih (n / 2 ^ c) (by omega) hdpos)
    unfold bitIndexAux
    split_ifs with h32 h8 h2
    · exact step 32 (by norm_num) h32
    · exact step 8 (by norm_num) h8
    · have := step 1 (by norm_num) (by simpa using h2)
      simpa using this
    · simp
      omega

/-- Rounding a magnitude moves it by at most half a unit in the last place and
lands on a multiple of that unit (`2^(e-52)` for leading-bit index `e`). -/
theorem roundMagnitude_nearest (n : Nat) :
    roundMagnitude n % 2 ^ (bitIndex n - 52) = 0 ∧
    2 * (roundMagnitude n - n) ≤ 2 ^ (bitIndex n - 52) ∧
    2 * (n - roundMagnitude n) ≤ 2 ^ (bitIndex n - 52) := by
  unfold roundMagnitude
  by_cases he : bitIndex n < 53
  · have hsh : bitIndex n - 52 = 0 := by omega
    simp [he, hsh, Nat.mod_one]
  · simp only [he, if_false]
    have hsh : bitIndex n - 52 = (bitIndex n - 52 - 1) + 1 := by omega
    set sh := bitIndex n - 52 with hshdef
    have hP : 2 ^ sh = 2 * 2 ^ (sh - 1) := by
      rw [hsh, pow_succ]
      simp
      ring
    have hdm := Nat.div_add_mod n (2 ^ sh)
    have hr : n % 2 ^ sh < 2 ^ sh := Nat.mod_lt _ (by positivity)
    have hmul : (n / 2 ^ sh + 1) * 2 ^ sh = 2 ^ sh * (n / 2 ^ sh) + 2 ^ sh := by ring
    have hmul2 : n / 2 ^ sh * 2 ^ sh = 2 ^ sh * (n / 2 ^ sh) := by ring
    split_ifs with hup
    · refine ⟨Nat.mul_mod_left _ _, ?_, ?_⟩
      · rw [hmul]
        rcases hup with h | ⟨h, _⟩ <;> omega
      · rw [hmul]
        omega
    · refine ⟨Nat.mul_mod_left _ _, ?_, ?_⟩
      · rw [hmul2]
        omega
      · rw [hmul2]
        have : n % 2 ^ sh ≤ 2 ^ (sh - 1) := by
          by_contra hc
          exact hup (Or.inl (by omega))
        omega

/-- The leading-bit index of a positive `n` is `floor (log2 n)`. -/
theorem bitIndex_spec (n : Nat) (hn : 0 < n) :
    2 ^ bitIndex n ≤ n ∧ n < 2 ^ (bitIndex n + 1) :=
  bitIndexAux_spec n n (Nat.le_refl n) hn

/-- Each weight is a 53-bit significand times its unit in the last place, and lies
within half a unit in the last place of the decimal it is written as
(`0.30`, `0.20`, `0.15`), so it is the double the literal denotes. -/
theorem WEIGHTS_nearest_doubles :
    (bitIndex WEIGHTS.AGE.natAbs = 53 ∧ WEIGHTS.AGE % 2 = 0 ∧
      |10 * WEIGHTS.AGE - 3 * 2 ^ unitBits| < 10) ∧
    (bitIndex WEIGHTS.LOCATION.natAbs = 52 ∧
      2 * |5 * WEIGHTS.LOCATION - 2 ^ unitBits| < 5) ∧
    (bitIndex WEIGHTS.LIFESTYLE.natAbs = 52 ∧
      2 * |20 * WEIGHTS.LIFESTYLE - 3 * 2 ^ unitBits| < 20) ∧
    WEIGHTS.EDUCATION_CAREER = WEIGHTS.LOCATION ∧ WEIGHTS.FAMILY_VALUES = WEIGHTS.LIFESTYLE := by
  decide

/-! The table below is checked by evaluation, one age score at a time. -/

/-- Binary64 and exact half-up rounding agree for age score 0. -/
theorem mathRound_weightedSum_age0 :
    ∀ l ∈ locationScoreValues, ∀ e ∈ educationCareerScoreValues,
      ∀ s ∈ lifestyleScoreValues, ∀ f ∈ familyValuesScoreValues,
        mathRound (weightedSum 0 l e s f) = exactRoundedScore 0 l e s f := by
  decide!

/-- Binary64 and exact half-up rounding agree for age score 10. -/
theorem mathRound_weightedSum_age10 :
    ∀ l ∈ locationScoreValues, ∀ e ∈ educationCareerScoreValues,
      ∀ s ∈ lifestyleScoreValues, ∀ f ∈ familyValuesScoreValues,
        mathRound (weightedSum 10 l e s f) = exactRoundedScore 10 l e s f := by
  decide!

/-- Binary64 and exact half-up rounding agree for age score 20. -/
theorem mathRound_weightedSum_age20 :
    ∀ l ∈ locationScoreValues, ∀ e ∈ educationCareerScoreValues,
      ∀ s ∈ lifestyleScoreValues, ∀ f ∈ familyValuesScoreValues,
        mathRound (weightedSum 20 l e s f) = exactRoundedScore 20 l e s f := by
  decide!

/-- Binary64 and exact half-up rounding agree for age score 30. -/
theorem mathRound_weightedSum_age30 :
    ∀ l ∈ locationScoreValues, ∀ e ∈ educationCareerScoreValues,
      ∀ s ∈ lifestyleScoreValues, ∀ f ∈ familyValuesScoreValues,
        mathRound (weightedSum 30 l e s f) = exactRoundedScore 30 l e s f := by
  decide!

/-- Binary64 and exact half-up rounding agree for age score 40. -/
theorem mathRound_weightedSum_age40 :
    ∀ l ∈ locationScoreValues, ∀ e ∈ educationCareerScoreValues,
      ∀ s ∈ lifestyleScoreValues, ∀ f ∈ familyValuesScoreValues,
        mathRound (weightedSum 40 l e s f) = exactRoundedScore 40 l e s f := by
  decide!

/-- Binary64 and exact half-up rounding agree for age score 50. -/
theorem mathRound_weightedSum_age50 :
    ∀ l ∈ locationScoreValues, ∀ e ∈ educationCareerScoreValues,
      ∀ s ∈ lifestyleScoreValues, ∀ f ∈ familyValuesScoreValues,
        mathRound (weightedSum 50 l e s f) = exactRoundedScore 50 l e s f := by
  decide!

/-- Binary64 and exact half-up rounding agree for age score 60. -/
theorem mathRound_weightedSum_age60 :
    ∀ l ∈ locationScoreValues, ∀ e ∈ educationCareerScoreValues,
      ∀ s ∈ lifestyleScoreValues, ∀ f ∈ familyValuesScoreValues,
        mathRound (weightedSum 60 l e s f) = exactRoundedScore 60 l e s f := by
  decide!

/-- Binary64 and exact half-up rounding agree for age score 70. -/
theorem mathRound_weightedSum_age70 :
    ∀ l ∈ locationScoreValues, ∀ e ∈ educationCareerScoreValues,
      ∀ s ∈ lifestyleScoreValues, ∀ f ∈ familyValuesScoreValues,
        mathRound (weightedSum 70 l e s f) = exactRoundedScore 70 l e s f := by
  decide!

/-- Binary64 and exact half-up rounding agree for age score 80. -/
theorem mathRound_weightedSum_age80 :
    ∀ l ∈ locationScoreValues, ∀ e ∈ educationCareerScoreValues,
      ∀ s ∈ lifestyleScoreValues, ∀ f ∈ familyValuesScoreValues,
        mathRound (weightedSum 80 l e s f) = exactRoundedScore 80 l e s f := by
  decide!

/-- Binary64 and exact half-up rounding agree for age score 90. -/
theorem mathRound_weightedSum_age90 :
    ∀ l ∈ locationScoreValues, ∀ e ∈ educationCareerScoreValues,
      ∀ s ∈ lifestyleScoreValues, ∀ f ∈ familyValuesScoreValues,
        mathRound (weightedSum 90 l e s f) = exactRoundedScore 90 l e s f := by
  decide!

/-- Binary64 and exact half-up rounding agree for age score 100. -/
theorem mathRound_weightedSum_age100 :
    ∀ l ∈ locationScoreValues, ∀ e ∈ educationCareerScoreValues,
      ∀ s ∈ lifestyleScoreValues, ∀ f ∈ familyValuesScoreValues,
        mathRound (weightedSum 100 l e s f) = exactRoundedScore 100 l e s f := by
  decide!

/-- The rounded sum of the five products, in binary64, agrees with exact half-up
rounding on every tuple of values the five scorers can return. -/
theorem mathRound_weightedSum_table :
    ∀ a ∈ ageScoreValues, ∀ l ∈ locationScoreValues, ∀ e ∈ educationCareerScoreValues,
      ∀ s ∈ lifestyleScoreValues, ∀ f ∈ familyValuesScoreValues,
        mathRound (weightedSum a l e s f) = exactRoundedScore a l e s f := by
  intro a ha
  simp only [ageScoreValues, List.mem_cons, List.mem_singleton, List.not_mem_nil,
    or_false] at ha
  rcases ha with rfl | rfl | rfl | rfl | rfl | rfl | rfl | rfl | rfl | rfl | rfl
  · exact mathRound_weightedSum_age0
  · exact mathRound_weightedSum_age10
  · exact mathRound_weightedSum_age20
  · exact mathRound_weightedSum_age30
  · exact mathRound_weightedSum_age40
  · exact mathRound_weightedSum_age50
  · exact mathRound_weightedSum_age60
  · exact mathRound_weightedSum_age70
  · exact mathRound_weightedSum_age80
  · exact mathRound_weightedSum_age90
  · exact mathRound_weightedSum_age100

/-- Binary64 rounding is not exact rounding in general: outside the value tables
the two disagree, e.g. at scores `98, 11, 70, 56, 30` (exact sum `58.5`). -/
theorem mathRound_weightedSum_inexact :
    mathRound (weightedSum 98 11 70 56 30) = 58 ∧ exactRoundedScore 98 11 70 56 30 = 59 := by
  decide

/-! ## Ranges of the category scorers -/

theorem calculateAgeScore_mem (p1 p2 : Profile) :
    calculateAgeScore p1 p2 ∈ ageScoreValues := by
  unfold calculateAgeScore ageScoreValues
  cases hp : p1.preferences with
  | none =>
    simp only [List.mem_cons, List.mem_singleton]
    split_ifs <;> simp
  | some prefs =>
    simp only [List.mem_cons, List.mem_singleton, List.not_mem_nil, or_false]
    split_ifs with h
    · simp
    · rcases abs_cases (p2.age - prefs.ageRange.min) with ⟨h1, _⟩ | ⟨h1, _⟩ <;>
      rcases abs_cases (p2.age - prefs.ageRange.max) with ⟨h2, _⟩ | ⟨h2, _⟩ <;>
      rw [h1, h2] <;>
      omega

theorem calculateLocationScore_mem (toLowerCase : JSString → JSString) (p1 p2 : Profile) :
    calculateLocationScore toLowerCase p1 p2 ∈ locationScoreValues := by
  unfold calculateLocationScore locationScoreValues
  split_ifs <;> simp

theorem calculateEducationCareerScore_mem (toLowerCase : JSString → JSString)
    (p1 p2 : Profile) :
    calculateEducationCareerScore toLowerCase p1 p2 ∈ educationCareerScoreValues := by
  unfold calculateEducationCareerScore educationCareerScoreValues
  split_ifs <;> simp

theorem calculateLifestyleScore_mem (p1 p2 : Profile) :
    calculateLifestyleScore p1 p2 ∈ lifestyleScoreValues := by
  unfold calculateLifestyleScore lifestyleScoreValues
  split_ifs <;> simp

theorem calculateFamilyValuesScore_mem (p1 p2 : Profile) :
    calculateFamilyValuesScore p1 p2 ∈ familyValuesScoreValues := by
  unfold calculateFamilyValuesScore familyValuesScoreValues
  split_ifs <;> simp

/-! ## The engine on an eligible pair -/

/-- With different genders the engine returns exactly the assembled record and
leaves the console as it was. -/
theorem generateNaradMuniCompatibility_of_ne (toLowerCase : JSString → JSString)
    (myProfile candidateProfile : Profile) (options : Option EngineOptions)
    (console : Console) (hg : myProfile.gender ≠ candidateProfile.gender) :
    generateNaradMuniCompatibility toLowerCase myProfile candidateProfile options console =
      (some {
        overallScore := mathRound (weightedSum
          (calculateAgeScore myProfile candidateProfile)
          (calculateLocationScore toLowerCase myProfile candidateProfile)
          (calculateEducationCareerScore toLowerCase myProfile candidateProfile)
          (calculateLifestyleScore myProfile candidateProfile)
          (calculateFamilyValuesScore myProfile candidateProfile))
        categoryScores := {
          age := calculateAgeScore myProfile candidateProfile
          location := calculateLocationScore toLowerCase myProfile candidateProfile
          educationCareer := calculateEducationCareerScore toLowerCase myProfile candidateProfile
          lifestyle := calculateLifestyleScore myProfile candidateProfile
          familyValues := calculateFamilyValuesScore myProfile candidateProfile }
        radarGraphData := {
          labels := ["Age", "Location", "Career", "Lifestyle", "Family"]
          values := [calculateAgeScore myProfile candidateProfile,
            calculateLocationScore toLowerCase myProfile candidateProfile,
            calculateEducationCareerScore toLowerCase myProfile candidateProfile,
            calculateLifestyleScore myProfile candidateProfile,
            calculateFamilyValuesScore myProfile candidateProfile] }
        insights := [
          getInsight "family values" (calculateFamilyValuesScore myProfile candidateProfile),
          getInsight "lifestyle preferences" (calculateLifestyleScore myProfile candidateProfile),
          getInsight "life goals"
            (calculateEducationCareerScore toLowerCase myProfile candidateProfile)]
        symbolicIndicator :=
          if (options.getD {}).includeSymbolic = some true then
            some (getSymbolicCompatibility myProfile.id candidateProfile.id)
          else none
        disclaimer := "This compatibility insight is for informational purposes only and does not constitute medical, legal, or predictive advice." },
       console) := by
  unfold generateNaradMuniCompatibility
  simp only [if_neg hg]

/-- With equal genders the engine returns `null` and warns on the console. -/
theorem generateNaradMuniCompatibility_of_eq (toLowerCase : JSString → JSString)
    (myProfile candidateProfile : Profile) (options : Option EngineOptions)
    (console : Console) (hg : myProfile.gender = candidateProfile.gender) :
    generateNaradMuniCompatibility toLowerCase myProfile candidateProfile options console =
      (none, console ++ ["NaradMuni: Same gender matching is not supported."]) := by
  unfold generateNaradMuniCompatibility
  simp only [if_pos hg]

/-! ## Eligibility -/

/-- C1: the engine returns `null` if and only if the two genders are equal, whatever
the other fields and the options; with different genders it returns a populated
result (five radar labels, five radar values, three insights). -/
theorem generateNaradMuniCompatibility_null_iff_same_gender
    (toLowerCase : JSString → JSString) (myProfile candidateProfile : Profile)
    (options : Option EngineOptions) (console : Console) :
    ((generateNaradMuniCompatibility toLowerCase myProfile candidateProfile options console).1
        = none ↔ myProfile.gender = candidateProfile.gender) ∧
    ((∃ r, (generateNaradMuniCompatibility toLowerCase myProfile candidateProfile options
          console).1 = some r ∧ r.radarGraphData.labels.length = 5 ∧
          r.radarGraphData.values.length = 5 ∧ r.insights.length = 3)
        ↔ myProfile.gender ≠ candidateProfile.gender) := by
  by_cases hg : myProfile.gender = candidateProfile.gender
  · rw [generateNaradMuniCompatibility_of_eq toLowerCase _ _ options console hg]
    simp [hg]
  · rw [generateNaradMuniCompatibility_of_ne toLowerCase _ _ options console hg]
    simp [hg]

/-! ## Overall score -/

/-- C2, amended: for every pair with different genders whose ages and age-range bounds
are integers (as `Profile.age` and `AgeRange` are) the engine returns a result whose
`overallScore` is the weighted sum of its own category scores rounded half up:
`floor ((30a + 20l + 20e + 15s + 15f + 50) / 100)`. -/
theorem overallScore_eq_rounded_weighted_sum
    (toLowerCase : JSString → JSString) (myProfile candidateProfile : Profile)
    (options : Option EngineOptions) (console : Console)
    (hg : myProfile.gender ≠ candidateProfile.gender) :
    ∃ r, (generateNaradMuniCompatibility toLowerCase myProfile candidateProfile options
        console).1 = some r ∧
      r.overallScore = exactRoundedScore r.categoryScores.age r.categoryScores.location
        r.categoryScores.educationCareer r.categoryScores.lifestyle
        r.categoryScores.familyValues ∧
      r.overallScore = (30 * r.categoryScores.age + 20 * r.categoryScores.location +
        20 * r.categoryScores.educationCareer + 15 * r.categoryScores.lifestyle +
        15 * r.categoryScores.familyValues + 50) / 100 := by
  rw [generateNaradMuniCompatibility_of_ne toLowerCase _ _ options console hg]
  have key := mathRound_weightedSum_table _ (calculateAgeScore_mem myProfile candidateProfile)
    _ (calculateLocationScore_mem toLowerCase myProfile candidateProfile)
    _ (calculateEducationCareerScore_mem toLowerCase myProfile candidateProfile)
    _ (calculateLifestyleScore_mem myProfile candidateProfile)
    _ (calculateFamilyValuesScore_mem myProfile candidateProfile)
  exact ⟨_, rfl, key, key⟩

/-- Witness for the amended C2 on the sample pair. -/
theorem overallScore_eq_rounded_weighted_sum_witness :
    sampleSubject.gender ≠ sampleCandidate.gender ∧
    ∃ r, (generateNaradMuniCompatibility asciiToLowerCase sampleSubject sampleCandidate none
        []).1 = some r ∧
      r.overallScore = exactRoundedScore r.categoryScores.age r.categoryScores.location
        r.categoryScores.educationCareer r.categoryScores.lifestyle
        r.categoryScores.familyValues ∧
      r.overallScore = (30 * r.categoryScores.age + 20 * r.categoryScores.location +
        20 * r.categoryScores.educationCareer + 15 * r.categoryScores.lifestyle +
        15 * r.categoryScores.familyValues + 50) / 100 :=
  ⟨by decide, overallScore_eq_rounded_weighted_sum asciiToLowerCase sampleSubject
    sampleCandidate none [] (by decide)⟩

/-- Exact half-up rounding of scores in `[0, 100]` stays in `[0, 100]`. -/
theorem exactRoundedScore_bounds {a l e s f : Int}
    (ha : 0 ≤ a ∧ a ≤ 100) (hl : 0 ≤ l ∧ l ≤ 100) (he : 0 ≤ e ∧ e ≤ 100)
    (hs : 0 ≤ s ∧ s ≤ 100) (hf : 0 ≤ f ∧ f ≤ 100) :
    0 ≤ exactRoundedScore a l e s f ∧ exactRoundedScore a l e s f ≤ 100 := by
  unfold exactRoundedScore
  omega

/-- Every entry of the five value tables lies in `[0, 100]`. -/
theorem scoreValues_bounds :
    (∀ v ∈ ageScoreValues, 0 ≤ v ∧ v ≤ 100) ∧
    (∀ v ∈ locationScoreValues, 0 ≤ v ∧ v ≤ 100) ∧
    (∀ v ∈ educationCareerScoreValues, 0 ≤ v ∧ v ≤ 100) ∧
    (∀ v ∈ lifestyleScoreValues, 0 ≤ v ∧ v ≤ 100) ∧
    (∀ v ∈ familyValuesScoreValues, 0 ≤ v ∧ v ≤ 100) := by
  decide

/-- C3: for every pair with different genders (integer ages, any age range or none)
the engine returns a result whose overall score and five category scores all lie
in `[0, 100]`. -/
theorem scores_within_0_100
    (toLowerCase : JSString → JSString) (myProfile candidateProfile : Profile)
    (options : Option EngineOptions) (console : Console)
    (hg : myProfile.gender ≠ candidateProfile.gender) :
    ∃ r, (generateNaradMuniCompatibility toLowerCase myProfile candidateProfile options
        console).1 = some r ∧
      (0 ≤ r.overallScore ∧ r.overallScore ≤ 100) ∧
      (0 ≤ r.categoryScores.age ∧ r.categoryScores.age ≤ 100) ∧
      (0 ≤ r.categoryScores.location ∧ r.categoryScores.location ≤ 100) ∧
      (0 ≤ r.categoryScores.educationCareer ∧ r.categoryScores.educationCareer ≤ 100) ∧
      (0 ≤ r.categoryScores.lifestyle ∧ r.categoryScores.lifestyle ≤ 100) ∧
      (0 ≤ r.categoryScores.familyValues ∧ r.categoryScores.familyValues ≤ 100) := by
  rw [generateNaradMuniCompatibility_of_ne toLowerCase _ _ options console hg]
  obtain ⟨hA, hL, hE, hS, hF⟩ := scoreValues_bounds
  have ha := hA _ (calculateAgeScore_mem myProfile candidateProfile)
  have hl := hL _ (calculateLocationScore_mem toLowerCase myProfile candidateProfile)
  have he := hE _ (calculateEducationCareerScore_mem toLowerCase myProfile candidateProfile)
  have hs := hS _ (calculateLifestyleScore_mem myProfile candidateProfile)
  have hf := hF _ (calculateFamilyValuesScore_mem myProfile candidateProfile)
  have key := mathRound_weightedSum_table _ (calculateAgeScore_mem myProfile candidateProfile)
    _ (calculateLocationScore_mem toLowerCase myProfile candidateProfile)
    _ (calculateEducationCareerScore_mem toLowerCase myProfile candidateProfile)
    _ (calculateLifestyleScore_mem myProfile candidateProfile)
    _ (calculateFamilyValuesScore_mem myProfile candidateProfile)
  refine ⟨_, rfl, ?_, ha, hl, he, hs, hf⟩
  show 0 ≤ mathRound _ ∧ mathRound _ ≤ 100
  rw [key]
  exact exactRoundedScore_bounds ha hl he hs hf

/-- Witness for C3 on the asymmetry-scenario pair (subject with an age range). -/
theorem scores_within_0_100_witness :
    scenarioA.gender ≠ scenarioB.gender ∧
    ∃ r, (generateNaradMuniCompatibility asciiToLowerCase scenarioA scenarioB none []).1
        = some r ∧
      (0 ≤ r.overallScore ∧ r.overallScore ≤ 100) ∧
      (0 ≤ r.categoryScores.age ∧ r.categoryScores.age ≤ 100) ∧
      (0 ≤ r.categoryScores.location ∧ r.categoryScores.location ≤ 100) ∧
      (0 ≤ r.categoryScores.educationCareer ∧ r.categoryScores.educationCareer ≤ 100) ∧
      (0 ≤ r.categoryScores.lifestyle ∧ r.categoryScores.lifestyle ≤ 100) ∧
      (0 ≤ r.categoryScores.familyValues ∧ r.categoryScores.familyValues ≤ 100) :=
  ⟨by decide, scores_within_0_100 asciiToLowerCase scenarioA scenarioB none [] (by decide)⟩

/-! ## Age -/

/-- C4: with a declared age range `{min, max}`, `min ≤ max`, the age score is 100 when
the candidate's age is inside the range and otherwise `max 0 (100 - 10 * d)`, `d` being
the distance to the nearest bound; the subject's own age plays no part. -/
theorem calculateAgeScore_with_ageRange (p1 p2 : Profile) (prefs : Preferences)
    (hp : p1.preferences = some prefs) (hle : prefs.ageRange.min ≤ prefs.ageRange.max) :
    (prefs.ageRange.min ≤ p2.age ∧ p2.age ≤ prefs.ageRange.max →
      calculateAgeScore p1 p2 = 100) ∧
    (p2.age < prefs.ageRange.min →
      calculateAgeScore p1 p2 = max 0 (100 - 10 * (prefs.ageRange.min - p2.age))) ∧
    (prefs.ageRange.max < p2.age →
      calculateAgeScore p1 p2 = max 0 (100 - 10 * (p2.age - prefs.ageRange.max))) ∧
    (∀ ownAge : Int, calculateAgeScore { p1 with age := ownAge } p2 = calculateAgeScore p1 p2) := by
  refine ⟨?_, ?_, ?_, ?_⟩
  · intro h
    simp only [calculateAgeScore, hp, ge_iff_le]
    rw [if_pos h]
  · intro h
    simp only [calculateAgeScore, hp, ge_iff_le]
    rw [if_neg (by omega)]
    rcases abs_cases (p2.age - prefs.ageRange.min) with ⟨h1, _⟩ | ⟨h1, _⟩ <;>
    rcases abs_cases (p2.age - prefs.ageRange.max) with ⟨h2, _⟩ | ⟨h2, _⟩ <;>
    rw [h1, h2] <;>
    omega
  · intro h
    simp only [calculateAgeScore, hp, ge_iff_le]
    rw [if_neg (by omega)]
    rcases abs_cases (p2.age - prefs.ageRange.min) with ⟨h1, _⟩ | ⟨h1, _⟩ <;>
    rcases abs_cases (p2.age - prefs.ageRange.max) with ⟨h2, _⟩ | ⟨h2, _⟩ <;>
    rw [h1, h2] <;>
    omega
  · intro ownAge
    simp only [calculateAgeScore, hp]

/-- Witness for C4: range `{30, 35}` against a candidate aged 40. -/
theorem calculateAgeScore_with_ageRange_witness :
    scenarioA.preferences = some range30to35 ∧
    range30to35.ageRange.min ≤ range30to35.ageRange.max ∧
    range30to35.ageRange.max < scenarioB.age ∧
    calculateAgeScore scenarioA scenarioB
      = max 0 (100 - 10 * (scenarioB.age - range30to35.ageRange.max)) :=
  ⟨rfl, by decide, by decide,
    (calculateAgeScore_with_ageRange scenarioA scenarioB range30to35 rfl (by decide)).2.2.1
      (by decide)⟩

/-- C5: without an age-range preference the age score is the gap table on
`gap = |p1.age - p2.age|` (100, 80, 50, 20 at `gap ≤ 5`, `≤ 8`, `≤ 12`, above) and
depends on nothing but that gap. -/
theorem calculateAgeScore_default_gap_table (p1 p2 : Profile)
    (hp : p1.preferences = none) :
    (|p1.age - p2.age| ≤ 5 → calculateAgeScore p1 p2 = 100) ∧
    (5 < |p1.age - p2.age| ∧ |p1.age - p2.age| ≤ 8 → calculateAgeScore p1 p2 = 80) ∧
    (8 < |p1.age - p2.age| ∧ |p1.age - p2.age| ≤ 12 → calculateAgeScore p1 p2 = 50) ∧
    (12 < |p1.age - p2.age| → calculateAgeScore p1 p2 = 20) ∧
    (∀ q1 q2 : Profile, q1.preferences = none →
      |q1.age - q2.age| = |p1.age - p2.age| →
      calculateAgeScore q1 q2 = calculateAgeScore p1 p2) := by
  refine ⟨?_, ?_, ?_, ?_, ?_⟩
  · intro h
    simp only [calculateAgeScore, hp]
    rw [if_pos h]
  · rintro ⟨h1, h2⟩
    simp only [calculateAgeScore, hp]
    rw [if_neg (by omega), if_pos h2]
  · rintro ⟨h1, h2⟩
    simp only [calculateAgeScore, hp]
    rw [if_neg (by omega), if_neg (by omega), if_pos h2]
  · intro h
    simp only [calculateAgeScore, hp]
    rw [if_neg (by omega), if_neg (by omega), if_neg (by omega)]
  · intro q1 q2 hq hgap
    simp only [calculateAgeScore, hp, hq, hgap]

/-- Witness for C5: the sample pair (ages 30 and 33, gap 3). -/
theorem calculateAgeScore_default_gap_table_witness :
    sampleSubject.preferences = none ∧
    |sampleSubject.age - sampleCandidate.age| ≤ 5 ∧
    calculateAgeScore sampleSubject sampleCandidate = 100 :=
  ⟨rfl, by decide,
    (calculateAgeScore_default_gap_table sampleSubject sampleCandidate rfl).1 (by decide)⟩

/-- C6, counterexample: subject A aged 30 with `ageRange = {30, 35}` and candidate B
aged 40 without preferences score 50 in both directions (the gap is 10). -/
theorem ageAsymmetry_scenario_counterexample :
    scenarioA.preferences = some range30to35 ∧ scenarioB.age = 40 ∧
    scenarioB.preferences = none ∧
    calculateAgeScore scenarioA scenarioB = 50 ∧
    calculateAgeScore scenarioB scenarioA = calculateAgeScore scenarioA scenarioB :=
  ⟨rfl, rfl, rfl, by decide, by decide⟩

/-- C6, amended: for every subject A with `ageRange = {30, 35}` and every candidate B
aged 40 without preferences, `calculateAgeScore A B = 50`, and `calculateAgeScore B A`
differs from it exactly when the gap `|40 - A.age|` is outside `9..12`. -/
theorem ageAsymmetry_scenario (A B : Profile) (prefs : Preferences)
    (hA : A.preferences = some prefs) (hr : prefs.ageRange = { min := 30, max := 35 })
    (hB : B.age = 40) (hBp : B.preferences = none) :
    calculateAgeScore A B = 50 ∧
    (calculateAgeScore B A ≠ calculateAgeScore A B ↔
      ¬ (9 ≤ |40 - A.age| ∧ |40 - A.age| ≤ 12)) := by
  have h1 : calculateAgeScore A B = 50 := by
    simp only [calculateAgeScore, hA, hr, hB]
    decide
  refine ⟨h1, ?_⟩
  rw [h1]
  simp only [calculateAgeScore, hBp, hB]
  split_ifs <;> omega

/-- Witness for the amended C6: A aged 33 scores 50 towards B, B scores 80 towards A. -/
theorem ageAsymmetry_scenario_witness :
    calculateAgeScore { scenarioA with age := 33 } scenarioB = 50 ∧
    (calculateAgeScore scenarioB { scenarioA with age := 33 }
        ≠ calculateAgeScore { scenarioA with age := 33 } scenarioB ↔
      ¬ (9 ≤ |40 - ({ scenarioA with age := 33 } : Profile).age| ∧
        |40 - ({ scenarioA with age := 33 } : Profile).age| ≤ 12)) :=
  ageAsymmetry_scenario { scenarioA with age := 33 } scenarioB range30to35 rfl rfl rfl rfl

/-! ## Location, education, lifestyle, family values -/

/-- C7: the location score is strictly tiered, first match winning, on lower-cased
strings: 100 for equal cities (whatever state and country), else 70 for equal states,
else 40 for equal countries, else 0; no other value occurs. -/
theorem calculateLocationScore_tiers (toLowerCase : JSString → JSString) (p1 p2 : Profile) :
    (toLowerCase p1.location.city = toLowerCase p2.location.city →
      calculateLocationScore toLowerCase p1 p2 = 100) ∧
    (toLowerCase p1.location.city ≠ toLowerCase p2.location.city ∧
      toLowerCase p1.location.state = toLowerCase p2.location.state →
      calculateLocationScore toLowerCase p1 p2 = 70) ∧
    (toLowerCase p1.location.city ≠ toLowerCase p2.location.city ∧
      toLowerCase p1.location.state ≠ toLowerCase p2.location.state ∧
      toLowerCase p1.location.country = toLowerCase p2.location.country →
      calculateLocationScore toLowerCase p1 p2 = 40) ∧
    (toLowerCase p1.location.city ≠ toLowerCase p2.location.city ∧
      toLowerCase p1.location.state ≠ toLowerCase p2.location.state ∧
      toLowerCase p1.location.country ≠ toLowerCase p2.location.country →
      calculateLocationScore toLowerCase p1 p2 = 0) ∧
    (calculateLocationScore toLowerCase p1 p2 = 100 ∨
      calculateLocationScore toLowerCase p1 p2 = 70 ∨
      calculateLocationScore toLowerCase p1 p2 = 40 ∨
      calculateLocationScore toLowerCase p1 p2 = 0) := by
  unfold calculateLocationScore
  refine ⟨?_, ?_, ?_, ?_, ?_⟩
  · intro h
    rw [if_pos h]
  · rintro ⟨h1, h2⟩
    rw [if_neg h1, if_pos h2]
  · rintro ⟨h1, h2, h3⟩
    rw [if_neg h1, if_neg h2, if_pos h3]
  · rintro ⟨h1, h2, h3⟩
    rw [if_neg h1, if_neg h2, if_neg h3]
  · split_ifs <;> simp

/-- C8: the education/career score is exactly 100 when the lower-cased degree strings
are equal and exactly 70 otherwise, and it reads no field but the two degrees. -/
theorem calculateEducationCareerScore_values (toLowerCase : JSString → JSString)
    (p1 p2 : Profile) :
    (toLowerCase p1.education.degree = toLowerCase p2.education.degree →
      calculateEducationCareerScore toLowerCase p1 p2 = 100) ∧
    (toLowerCase p1.education.degree ≠ toLowerCase p2.education.degree →
      calculateEducationCareerScore toLowerCase p1 p2 = 70) ∧
    (∀ q1 q2 : Profile, q1.education.degree = p1.education.degree →
      q2.education.degree = p2.education.degree →
      calculateEducationCareerScore toLowerCase q1 q2
        = calculateEducationCareerScore toLowerCase p1 p2) := by
  refine ⟨?_, ?_, ?_⟩
  · intro h
    simp only [calculateEducationCareerScore, if_pos h]
    decide
  · intro h
    simp only [calculateEducationCareerScore, if_neg h]
    decide
  · intro q1 q2 h1 h2
    simp only [calculateEducationCareerScore, h1, h2]

/-- C9: the lifestyle score is `max 0 (100 - D - S - K)`: `D` is 40 for a Veg against
Non-Veg pair, 10 for any other diet mismatch and 0 for equal diets; `S` is 20 when the
smoking values differ; `K` is 20 when the drinking values differ. -/
theorem calculateLifestyleScore_deductions (p1 p2 : Profile) :
    calculateLifestyleScore p1 p2 =
      max 0 (100
        - (if (p1.lifestyle.diet = Diet.Veg ∧ p2.lifestyle.diet = Diet.NonVeg) ∨
              (p1.lifestyle.diet = Diet.NonVeg ∧ p2.lifestyle.diet = Diet.Veg) then 40
            else if p1.lifestyle.diet ≠ p2.lifestyle.diet then 10 else 0)
        - (if p1.lifestyle.smoking ≠ p2.lifestyle.smoking then 20 else 0)
        - (if p1.lifestyle.drinking ≠ p2.lifestyle.drinking then 20 else 0)) := by
  unfold calculateLifestyleScore
  cases h1 : p1.lifestyle.diet <;> cases h2 : p2.lifestyle.diet <;>
    by_cases hs : p1.lifestyle.smoking = p2.lifestyle.smoking <;>
    by_cases hk : p1.lifestyle.drinking = p2.lifestyle.drinking <;>
    simp [hs, hk]

/-- C10: the family-values score is 100 for equal values, 70 when they differ and at
least one is Moderate, and 30 exactly for Traditional against Liberal. -/
theorem calculateFamilyValuesScore_values (p1 p2 : Profile) :
    (p1.family.values = p2.family.values → calculateFamilyValuesScore p1 p2 = 100) ∧
    (p1.family.values ≠ p2.family.values ∧
      (p1.family.values = FamilyValue.Moderate ∨ p2.family.values = FamilyValue.Moderate) →
      calculateFamilyValuesScore p1 p2 = 70) ∧
    (calculateFamilyValuesScore p1 p2 = 30 ↔
      (p1.family.values = FamilyValue.Traditional ∧ p2.family.values = FamilyValue.Liberal) ∨
      (p1.family.values = FamilyValue.Liberal ∧ p2.family.values = FamilyValue.Traditional)) := by
  unfold calculateFamilyValuesScore
  cases h1 : p1.family.values <;> cases h2 : p2.family.values <;> simp

/-! ## Insights -/

/-- C11: on an eligible pair the insights are exactly three, in the order family
values, lifestyle, education/career, each built by `getInsight` from the result's own
familyValues, lifestyle and educationCareer score; `getInsight` yields the strong
template above 80, the moderate one above 50 and up to 80, the differing one up to 50. -/
theorem insights_three_templates
    (toLowerCase : JSString → JSString) (myProfile candidateProfile : Profile)
    (options : Option EngineOptions) (console : Console)
    (hg : myProfile.gender ≠ candidateProfile.gender) :
    (∃ r, (generateNaradMuniCompatibility toLowerCase myProfile candidateProfile options
        console).1 = some r ∧
      r.insights.length = 3 ∧
      r.insights = [getInsight "family values" r.categoryScores.familyValues,
        getInsight "lifestyle preferences" r.categoryScores.lifestyle,
        getInsight "life goals" r.categoryScores.educationCareer]) ∧
    (∀ (category : String) (score : Int),
      (80 < score → getInsight category score = "Strong alignment in " ++ category ++ ".") ∧
      (50 < score ∧ score ≤ 80 →
        getInsight category score = "Moderate compatibility in " ++ category ++ ".") ∧
      (score ≤ 50 →
        getInsight category score = "Differing viewpoints in " ++ category ++ ".")) := by
  constructor
  · rw [generateNaradMuniCompatibility_of_ne toLowerCase _ _ options console hg]
    exact ⟨_, rfl, rfl, rfl⟩
  · intro category score
    unfold getInsight
    refine ⟨?_, ?_, ?_⟩
    · intro h
      rw [if_pos h]
    · rintro ⟨h1, h2⟩
      rw [if_neg (by omega), if_pos h1]
    · intro h
      rw [if_neg (by omega), if_neg (by omega)]

/-- Witness for C11 on the sample pair. -/
theorem insights_three_templates_witness :
    sampleSubject.gender ≠ sampleCandidate.gender ∧
    ∃ r, (generateNaradMuniCompatibility asciiToLowerCase sampleSubject sampleCandidate none
        []).1 = some r ∧
      r.insights.length = 3 ∧
      r.insights = [getInsight "family values" r.categoryScores.familyValues,
        getInsight "lifestyle preferences" r.categoryScores.lifestyle,
        getInsight "life goals" r.categoryScores.educationCareer] :=
  ⟨by decide, (insights_three_templates asciiToLowerCase sampleSubject sampleCandidate none []
    (by decide)).1⟩

/-! ## Symbolic layer -/

/-- The string order is irreflexive. -/
theorem jsStringLt_irrefl : ∀ a : JSString, jsStringLt a a = false
  | [] => rfl
  | c :: cs => by
    simp only [jsStringLt, lt_irrefl, if_false]
    exact jsStringLt_irrefl cs

/-- The string order is asymmetric. -/
theorem jsStringLt_asymm : ∀ a b : JSString, jsStringLt a b = true → jsStringLt b a = false
  | [], [] => fun _ => rfl
  | [], _ :: _ => fun _ => rfl
  | _ :: _, [] => fun h => by simp [jsStringLt] at h
  | x :: xs, y :: ys => fun h => by
    unfold jsStringLt at h ⊢
    by_cases h1 : x.val < y.val
    · have h2 : ¬ y.val < x.val := by omega
      simp [h2, h1]
    · by_cases h2 : y.val < x.val
      · simp [h1, h2] at h
      · simp only [h1, h2, if_false] at h ⊢
        exact jsStringLt_asymm xs ys h

/-- The string order is total: two strings neither below the other are equal. -/
theorem jsStringLt_total : ∀ a b : JSString,
    jsStringLt a b = false → jsStringLt b a = false → a = b
  | [], [] => fun _ _ => rfl
  | [], _ :: _ => fun h _ => by simp [jsStringLt] at h
  | _ :: _, [] => fun _ h => by simp [jsStringLt] at h
  | x :: xs, y :: ys => fun h h' => by
    unfold jsStringLt at h h'
    by_cases h1 : x.val < y.val
    · simp [h1] at h
    · by_cases h2 : y.val < x.val
      · simp [h2] at h'
      · simp only [h1, h2, if_false] at h h'
        have hxy : x = y := Fin.ext (by omega)
        rw [hxy, jsStringLt_total xs ys h h']

/-- The string the hash runs over does not depend on the order of the two ids. -/
theorem combined_comm (id1 id2 : JSString) :
    (if jsStringLt id1 id2 then id1 ++ id2 else id2 ++ id1) =
      (if jsStringLt id2 id1 then id2 ++ id1 else id1 ++ id2) := by
  cases h12 : jsStringLt id1 id2 with
  | true =>
    rw [jsStringLt_asymm id1 id2 h12]
    simp
  | false =>
    cases h21 : jsStringLt id2 id1 with
    | true => simp
    | false =>
      rw [jsStringLt_total id1 id2 h12 h21]

/-- C12: the symbolic layer is order-independent: for all ids the record returned for
`(id1, id2)` equals the one for `(id2, id1)`, level and note alike. -/
theorem getSymbolicCompatibility_comm (id1 id2 : JSString) :
    getSymbolicCompatibility id1 id2 = getSymbolicCompatibility id2 id1 ∧
    (getSymbolicCompatibility id1 id2).level = (getSymbolicCompatibility id2 id1).level ∧
    (getSymbolicCompatibility id1 id2).note = (getSymbolicCompatibility id2 id1).note := by
  have h : getSymbolicCompatibility id1 id2 = getSymbolicCompatibility id2 id1 := by
    unfold getSymbolicCompatibility
    rw [combined_comm id1 id2]
  exact ⟨h, by rw [h], by rw [h]⟩

/-- `ToInt32` keeps the residue modulo `2^32` and lands in the signed 32-bit range. -/
theorem toInt32_spec (x : Int) :
    toInt32 x % 2 ^ 32 = x % 2 ^ 32 ∧ -(2 ^ 31) ≤ toInt32 x ∧ toInt32 x < 2 ^ 31 := by
  unfold toInt32
  omega

/-- One turn of the loop on a signed reading is the specified step on the unsigned
value. -/
theorem hashStep_asSigned32 (u : Nat) (c : Fin 65536) :
    hashStep (asSigned32 u) c = asSigned32 (specHashStep u c) := by
  have hc := c.isLt
  unfold hashStep asSigned32 specHashStep toInt32
  split_ifs <;> omega

/-- The loop and the specified fold stay in step from any matching pair of states. -/
theorem foldl_hashStep_asSigned32 (s : JSString) :
    ∀ u : Nat, s.foldl hashStep (asSigned32 u) = asSigned32 (s.foldl specHashStep u) := by
  induction s with
  | nil => intro u; rfl
  | cons c cs ih =>
    intro u
    rw [List.foldl_cons, List.foldl_cons, hashStep_asSigned32 u c]
    exact ih (specHashStep u c)

/-- C13: for every string of UTF-16 code units the hash computed by the loop
(`hash = ((hash << 5) - hash) + charCode; hash |= 0` from `0`) equals the specified
rolling hash, the fold of `(h * 31 + charCode) mod 2^32` read as a signed 32-bit
integer. -/
theorem hashLoop_eq_specRollingHash (s : JSString) :
    hashLoop s = specRollingHash s := by
  unfold hashLoop specRollingHash
  have h0 : (0 : Int) = asSigned32 0 := by decide
  rw [h0]
  exact foldl_hashStep_asSigned32 s 0

/-- C14: with `n = |hash| mod 100` of the hash of the two ids concatenated in sorted
order, the level is High iff `n > 66`, Medium iff `33 < n ≤ 66`, Low iff `n ≤ 33`;
each level carries its fixed note, so the note is determined by the level alone. -/
theorem getSymbolicCompatibility_buckets (id1 id2 : JSString) :
    ((getSymbolicCompatibility id1 id2).level = Level.High ↔
      66 < |hashLoop (if jsStringLt id1 id2 then id1 ++ id2 else id2 ++ id1)| % 100) ∧
    ((getSymbolicCompatibility id1 id2).level = Level.Medium ↔
      33 < |hashLoop (if jsStringLt id1 id2 then id1 ++ id2 else id2 ++ id1)| % 100 ∧
      |hashLoop (if jsStringLt id1 id2 then id1 ++ id2 else id2 ++ id1)| % 100 ≤ 66) ∧
    ((getSymbolicCompatibility id1 id2).level = Level.Low ↔
      |hashLoop (if jsStringLt id1 id2 then id1 ++ id2 else id2 ++ id1)| % 100 ≤ 33) ∧
    ((getSymbolicCompatibility id1 id2).level = Level.High ↔
      (getSymbolicCompatibility id1 id2).note
        = "Symbolic indicators suggest a harmonious connection.") ∧
    ((getSymbolicCompatibility id1 id2).level = Level.Medium ↔
      (getSymbolicCompatibility id1 id2).note
        = "Symbolic indicators suggest a balanced connection.") ∧
    ((getSymbolicCompatibility id1 id2).level = Level.Low ↔
      (getSymbolicCompatibility id1 id2).note
        = "Symbolic indicators suggest effort is needed for harmony.") ∧
    (∀ id3 id4 : JSString,
      (getSymbolicCompatibility id1 id2).level = (getSymbolicCompatibility id3 id4).level →
      (getSymbolicCompatibility id1 id2).note = (getSymbolicCompatibility id3 id4).note) := by
  have note_of_level : ∀ a b : JSString,
      (getSymbolicCompatibility a b).note =
        match (getSymbolicCompatibility a b).level with
        | Level.High => "Symbolic indicators suggest a harmonious connection."
        | Level.Medium => "Symbolic indicators suggest a balanced connection."
        | Level.Low => "Symbolic indicators suggest effort is needed for harmony." := by
    intro a b
    unfold getSymbolicCompatibility
    simp only
    split_ifs <;> rfl
  refine ⟨?_, ?_, ?_, ?_, ?_, ?_, ?_⟩
  · unfold getSymbolicCompatibility
    simp only [gt_iff_lt]
    split_ifs with h1 h2 <;> simp <;> omega
  · unfold getSymbolicCompatibility
    simp only [gt_iff_lt]
    split_ifs with h1 h2 <;> simp <;> omega
  · unfold getSymbolicCompatibility
    simp only [gt_iff_lt]
    split_ifs with h1 h2 <;> simp <;> omega
  · rw [note_of_level id1 id2]
    cases (getSymbolicCompatibility id1 id2).level <;> decide
  · rw [note_of_level id1 id2]
    cases (getSymbolicCompatibility id1 id2).level <;> decide
  · rw [note_of_level id1 id2]
    cases (getSymbolicCompatibility id1 id2).level <;> decide
  · intro id3 id4 h
    rw [note_of_level id1 id2, note_of_level id3 id4, h]

/-! ## Result assembly -/

/-- C15: on an eligible pair the symbolic indicator is present iff
`options.includeSymbolic` is `true`; with options omitted or the flag false or absent it
is undefined; when present it is `getSymbolicCompatibility` of the two ids; every other
field of the result is the same under any other options. -/
theorem symbolicIndicator_iff_flag
    (toLowerCase : JSString → JSString) (myProfile candidateProfile : Profile)
    (options : Option EngineOptions) (console : Console)
    (hg : myProfile.gender ≠ candidateProfile.gender) :
    ∃ r, (generateNaradMuniCompatibility toLowerCase myProfile candidateProfile options
        console).1 = some r ∧
      (r.symbolicIndicator.isSome = true ↔
        ∃ o, options = some o ∧ o.includeSymbolic = some true) ∧
      ((options = none ∨ ∃ o, options = some o ∧
          (o.includeSymbolic = none ∨ o.includeSymbolic = some false)) →
        r.symbolicIndicator = none) ∧
      ((∃ o, options = some o ∧ o.includeSymbolic = some true) →
        r.symbolicIndicator
          = some (getSymbolicCompatibility myProfile.id candidateProfile.id)) ∧
      (∀ (options2 : Option EngineOptions),
        ∃ r2, (generateNaradMuniCompatibility toLowerCase myProfile candidateProfile
            options2 console).1 = some r2 ∧
          r2.overallScore = r.overallScore ∧ r2.categoryScores = r.categoryScores ∧
          r2.radarGraphData = r.radarGraphData ∧ r2.insights = r.insights ∧
          r2.disclaimer = r.disclaimer) := by
  rw [generateNaradMuniCompatibility_of_ne toLowerCase _ _ options console hg]
  refine ⟨_, rfl, ?_, ?_, ?_, ?_⟩
  · rcases options with _ | ⟨⟨flag⟩⟩
    · simp
    · rcases flag with _ | _ | _ <;> simp
  · rintro (h | ⟨o, h, h2 | h2⟩)
    · subst h
      simp
    · subst h
      simp [h2]
    · subst h
      simp [h2]
  · rintro ⟨o, h, h2⟩
    subst h
    simp [h2]
  · intro options2
    rw [generateNaradMuniCompatibility_of_ne toLowerCase _ _ options2 console hg]
    exact ⟨_, rfl, rfl, rfl, rfl, rfl, rfl⟩

/-- Witness for C15: the sample pair with `includeSymbolic: true`. -/
theorem symbolicIndicator_iff_flag_witness :
    sampleSubject.gender ≠ sampleCandidate.gender ∧
    ∃ r, (generateNaradMuniCompatibility asciiToLowerCase sampleSubject sampleCandidate
        (some { includeSymbolic := some true }) []).1 = some r ∧
      r.symbolicIndicator
        = some (getSymbolicCompatibility sampleSubject.id sampleCandidate.id) := by
  refine ⟨by decide, ?_⟩
  obtain ⟨r, hr, _, _, h3, _⟩ := symbolicIndicator_iff_flag asciiToLowerCase sampleSubject
    sampleCandidate (some { includeSymbolic := some true }) [] (by decide)
  exact ⟨r, hr, h3 ⟨_, rfl, rfl⟩⟩

/-- C16: on an eligible pair the radar labels are exactly
`["Age", "Location", "Career", "Lifestyle", "Family"]`, the radar values are the five
category scores in the order age, location, educationCareer, lifestyle, familyValues,
both of length 5, and the disclaimer is one constant string. -/
theorem radarGraphData_and_disclaimer
    (toLowerCase : JSString → JSString) (myProfile candidateProfile : Profile)
    (options : Option EngineOptions) (console : Console)
    (hg : myProfile.gender ≠ candidateProfile.gender) :
    ∃ r, (generateNaradMuniCompatibility toLowerCase myProfile candidateProfile options
        console).1 = some r ∧
      r.radarGraphData.labels = ["Age", "Location", "Career", "Lifestyle", "Family"] ∧
      r.radarGraphData.values = [r.categoryScores.age, r.categoryScores.location,
        r.categoryScores.educationCareer, r.categoryScores.lifestyle,
        r.categoryScores.familyValues] ∧
      r.radarGraphData.labels.length = 5 ∧ r.radarGraphData.values.length = 5 ∧
      r.disclaimer = "This compatibility insight is for informational purposes only and does not constitute medical, legal, or predictive advice." := by
  rw [generateNaradMuniCompatibility_of_ne toLowerCase _ _ options console hg]
  exact ⟨_, rfl, rfl, rfl, rfl, rfl, rfl⟩

/-- Witness for C16 on the sample pair. -/
theorem radarGraphData_and_disclaimer_witness :
    sampleSubject.gender ≠ sampleCandidate.gender ∧
    ∃ r, (generateNaradMuniCompatibility asciiToLowerCase sampleSubject sampleCandidate none
        []).1 = some r ∧
      r.radarGraphData.labels = ["Age", "Location", "Career", "Lifestyle", "Family"] ∧
      r.radarGraphData.values = [r.categoryScores.age, r.categoryScores.location,
        r.categoryScores.educationCareer, r.categoryScores.lifestyle,
        r.categoryScores.familyValues] ∧
      r.radarGraphData.labels.length = 5 ∧ r.radarGraphData.values.length = 5 ∧
      r.disclaimer = "This compatibility insight is for informational purposes only and does not constitute medical, legal, or predictive advice." :=
  ⟨by decide, radarGraphData_and_disclaimer asciiToLowerCase sampleSubject sampleCandidate
    none [] (by decide)⟩

/-- A perfect tuple of category scores rounds to 100. -/
theorem mathRound_weightedSum_perfect :
    mathRound (weightedSum 100 100 100 100 100) = 100 := by
  decide

/-- C17: end-to-end scenario.  A male subject aged 30 without preferences and a female
candidate aged 33 with the same city, degree, diet, smoking and drinking values, both
with Traditional family values, score 100 in every category and overall, and the three
insights are the strong-alignment lines. -/
theorem endToEnd_scenario
    (toLowerCase : JSString → JSString) (myProfile candidateProfile : Profile)
    (options : Option EngineOptions) (console : Console)
    (hm : myProfile.gender = Gender.Male) (hma : myProfile.age = 30)
    (hmp : myProfile.preferences = none)
    (hc : candidateProfile.gender = Gender.Female) (hca : candidateProfile.age = 33)
    (hcity : candidateProfile.location.city = myProfile.location.city)
    (hdeg : candidateProfile.education.degree = myProfile.education.degree)
    (hdiet : candidateProfile.lifestyle.diet = myProfile.lifestyle.diet)
    (hsm : candidateProfile.lifestyle.smoking = myProfile.lifestyle.smoking)
    (hdr : candidateProfile.lifestyle.drinking = myProfile.lifestyle.drinking)
    (hmf : myProfile.family.values = FamilyValue.Traditional)
    (hcf : candidateProfile.family.values = FamilyValue.Traditional) :
    ∃ r, (generateNaradMuniCompatibility toLowerCase myProfile candidateProfile options
        console).1 = some r ∧
      r.categoryScores.age = 100 ∧ r.categoryScores.location = 100 ∧
      r.categoryScores.educationCareer = 100 ∧ r.categoryScores.lifestyle = 100 ∧
      r.categoryScores.familyValues = 100 ∧ r.overallScore = 100 ∧
      r.insights = ["Strong alignment in family values.",
        "Strong alignment in lifestyle preferences.", "Strong alignment in life goals."] := by
  have hg : myProfile.gender ≠ candidateProfile.gender := by
    rw [hm, hc]
    decide
  have hage : calculateAgeScore myProfile candidateProfile = 100 := by
    simp only [calculateAgeScore, hmp, hma, hca]
    decide
  have hloc : calculateLocationScore toLowerCase myProfile candidateProfile = 100 := by
    simp only [calculateLocationScore, hcity, if_true]
  have hedu : calculateEducationCareerScore toLowerCase myProfile candidateProfile = 100 := by
    simp only [calculateEducationCareerScore, hdeg, if_true]
    decide
  have hlife : calculateLifestyleScore myProfile candidateProfile = 100 := by
    simp only [calculateLifestyleScore, hdiet, hsm, hdr, ne_eq, not_true_eq_false, if_false]
    decide
  have hfam : calculateFamilyValuesScore myProfile candidateProfile = 100 := by
    simp only [calculateFamilyValuesScore, hmf, hcf, if_true]
  rw [generateNaradMuniCompatibility_of_ne toLowerCase _ _ options console hg]
  refine ⟨_, rfl, hage, hloc, hedu, hlife, hfam, ?_, ?_⟩
  · show mathRound _ = 100
    rw [hage, hloc, hedu, hlife, hfam]
    exact mathRound_weightedSum_perfect
  · show [getInsight _ _, getInsight _ _, getInsight _ _] = _
    rw [hedu, hlife, hfam]
    decide

/-- Witness for C17: the scenario pair. -/
theorem endToEnd_scenario_witness :
    ∃ r, (generateNaradMuniCompatibility asciiToLowerCase scenarioGroom scenarioBride none
        []).1 = some r ∧
      r.categoryScores.age = 100 ∧ r.categoryScores.location = 100 ∧
      r.categoryScores.educationCareer = 100 ∧ r.categoryScores.lifestyle = 100 ∧
      r.categoryScores.familyValues = 100 ∧ r.overallScore = 100 ∧
      r.insights = ["Strong alignment in family values.",
        "Strong alignment in lifestyle preferences.", "Strong alignment in life goals."] :=
  endToEnd_scenario asciiToLowerCase scenarioGroom scenarioBride none [] rfl rfl rfl rfl rfl
    rfl rfl rfl rfl rfl rfl rfl

/-! ## Side effects -/

/-- C18, counterexample: on a same-gender pair (the sample subject with himself) the
call leaves a warning on an empty console. -/
theorem console_unchanged_counterexample :
    (generateNaradMuniCompatibility asciiToLowerCase sampleSubject sampleSubject none []).1
      = none ∧
    (generateNaradMuniCompatibility asciiToLowerCase sampleSubject sampleSubject none []).2
      = ["NaradMuni: Same gender matching is not supported."] ∧
    (generateNaradMuniCompatibility asciiToLowerCase sampleSubject sampleSubject none []).2
      ≠ [] := by
  rw [generateNaradMuniCompatibility_of_eq asciiToLowerCase _ _ none [] rfl]
  exact ⟨rfl, rfl, List.cons_ne_nil _ _⟩

/-- C18, amended: the console is unchanged after every call on an eligible
(different-gender) pair; on a same-gender pair the call returns `null` and appends the
single line `NaradMuni: Same gender matching is not supported.` to the console. -/
theorem console_effect
    (toLowerCase : JSString → JSString) (myProfile candidateProfile : Profile)
    (options : Option EngineOptions) (console : Console) :
    (myProfile.gender ≠ candidateProfile.gender →
      (generateNaradMuniCompatibility toLowerCase myProfile candidateProfile options
        console).2 = console) ∧
    (myProfile.gender = candidateProfile.gender →
      (generateNaradMuniCompatibility toLowerCase myProfile candidateProfile options
        console).1 = none ∧
      (generateNaradMuniCompatibility toLowerCase myProfile candidateProfile options
        console).2 = console ++ ["NaradMuni: Same gender matching is not supported."]) := by
  constructor
  · intro hg
    rw [generateNaradMuniCompatibility_of_ne toLowerCase _ _ options console hg]
  · intro hg
    rw [generateNaradMuniCompatibility_of_eq toLowerCase _ _ options console hg]
    exact ⟨rfl, rfl⟩

/-! ## Symmetry and asymmetry -/

/-- C25: age scoring is asymmetric.  There are two profiles of different genders,
exactly one declaring an age range, whose age scores differ by direction (50 against
80 for A aged 33 with range `{30, 35}` and B aged 40) and whose overall scores differ
as well. -/
theorem ageScore_asymmetric_exists :
    ∃ A B : Profile, A.gender ≠ B.gender ∧
      A.preferences.isSome = true ∧ B.preferences = none ∧
      calculateAgeScore A B = 50 ∧ calculateAgeScore B A = 80 ∧
      calculateAgeScore A B ≠ calculateAgeScore B A ∧
      ∃ rAB rBA,
        (generateNaradMuniCompatibility asciiToLowerCase A B none []).1 = some rAB ∧
        (generateNaradMuniCompatibility asciiToLowerCase B A none []).1 = some rBA ∧
        rAB.overallScore ≠ rBA.overallScore := by
  refine ⟨asymmetryA, scenarioB, by decide, rfl, rfl, by decide, by decide, by decide, ?_⟩
  rw [generateNaradMuniCompatibility_of_ne asciiToLowerCase asymmetryA scenarioB none []
      (by decide),
    generateNaradMuniCompatibility_of_ne asciiToLowerCase scenarioB asymmetryA none []
      (by decide)]
  refine ⟨_, _, rfl, rfl, ?_⟩
  decide

/-- The default age score reads the two ages symmetrically. -/
theorem calculateAgeScore_symm_of_no_preferences (A B : Profile)
    (hA : A.preferences = none) (hB : B.preferences = none) :
    calculateAgeScore A B = calculateAgeScore B A := by
  simp only [calculateAgeScore, hA, hB, abs_sub_comm A.age B.age]

/-- The location score is symmetric. -/
theorem calculateLocationScore_symm (toLowerCase : JSString → JSString) (A B : Profile) :
    calculateLocationScore toLowerCase A B = calculateLocationScore toLowerCase B A := by
  simp only [calculateLocationScore,
    eq_comm (a := toLowerCase A.location.city),
    eq_comm (a := toLowerCase A.location.state),
    eq_comm (a := toLowerCase A.location.country)]

/-- The education/career score is symmetric. -/
theorem calculateEducationCareerScore_symm (toLowerCase : JSString → JSString)
    (A B : Profile) :
    calculateEducationCareerScore toLowerCase A B
      = calculateEducationCareerScore toLowerCase B A := by
  simp only [calculateEducationCareerScore, eq_comm (a := toLowerCase A.education.degree)]

/-- The lifestyle score is symmetric. -/
theorem calculateLifestyleScore_symm (A B : Profile) :
    calculateLifestyleScore A B = calculateLifestyleScore B A := by
  unfold calculateLifestyleScore
  cases A.lifestyle.diet <;> cases B.lifestyle.diet <;>
    cases A.lifestyle.smoking <;> cases B.lifestyle.smoking <;>
    cases A.lifestyle.drinking <;> cases B.lifestyle.drinking <;> rfl

/-- The family-values score is symmetric. -/
theorem calculateFamilyValuesScore_symm (A B : Profile) :
    calculateFamilyValuesScore A B = calculateFamilyValuesScore B A := by
  unfold calculateFamilyValuesScore
  cases A.family.values <;> cases B.family.values <;> rfl

/-- The symbolic indicator does not depend on the order of the ids. -/
theorem getSymbolicCompatibility_swap (id1 id2 : JSString) :
    getSymbolicCompatibility id1 id2 = getSymbolicCompatibility id2 id1 := by
  unfold getSymbolicCompatibility
  rw [combined_comm id1 id2]

/-- C26: symmetry without preferences.  For two profiles of different genders, neither
declaring an age range, and any options, the engine returns a result in both
directions and the two results are equal in every field. -/
theorem generateNaradMuniCompatibility_symm_of_no_preferences
    (toLowerCase : JSString → JSString) (A B : Profile) (options : Option EngineOptions)
    (console : Console) (hg : A.gender ≠ B.gender)
    (hA : A.preferences = none) (hB : B.preferences = none) :
    ∃ rAB rBA,
      (generateNaradMuniCompatibility toLowerCase A B options console).1 = some rAB ∧
      (generateNaradMuniCompatibility toLowerCase B A options console).1 = some rBA ∧
      rAB = rBA ∧
      rAB.categoryScores.age = rBA.categoryScores.age ∧
      rAB.categoryScores.location = rBA.categoryScores.location ∧
      rAB.categoryScores.educationCareer = rBA.categoryScores.educationCareer ∧
      rAB.categoryScores.lifestyle = rBA.categoryScores.lifestyle ∧
      rAB.categoryScores.familyValues = rBA.categoryScores.familyValues ∧
      rAB.overallScore = rBA.overallScore ∧
      rAB.radarGraphData.values = rBA.radarGraphData.values ∧
      rAB.insights = rBA.insights ∧
      rAB.symbolicIndicator = rBA.symbolicIndicator ∧
      rAB.disclaimer = rBA.disclaimer := by
  have hg2 : B.gender ≠ A.gender := fun h => hg h.symm
  have heq : (generateNaradMuniCompatibility toLowerCase A B options console).1 =
      (generateNaradMuniCompatibility toLowerCase B A options console).1 := by
    rw [generateNaradMuniCompatibility_of_ne toLowerCase A B options console hg,
      generateNaradMuniCompatibility_of_ne toLowerCase B A options console hg2,
      calculateAgeScore_symm_of_no_preferences A B hA hB,
      calculateLocationScore_symm toLowerCase A B,
      calculateEducationCareerScore_symm toLowerCase A B,
      calculateLifestyleScore_symm A B, calculateFamilyValuesScore_symm A B,
      getSymbolicCompatibility_swap A.id B.id]
  rw [heq, generateNaradMuniCompatibility_of_ne toLowerCase B A options console hg2]
  exact ⟨_, _, rfl, rfl, rfl, rfl, rfl, rfl, rfl, rfl, rfl, rfl, rfl, rfl, rfl⟩

/-- Witness for C26: the sample pair, neither with preferences, symbolic layer on. -/
theorem generateNaradMuniCompatibility_symm_of_no_preferences_witness :
    ∃ rAB rBA,
      (generateNaradMuniCompatibility asciiToLowerCase sampleSubject sampleCandidate
        (some { includeSymbolic := some true }) []).1 = some rAB ∧
      (generateNaradMuniCompatibility asciiToLowerCase sampleCandidate sampleSubject
        (some { includeSymbolic := some true }) []).1 = some rBA ∧
      rAB = rBA ∧
      rAB.categoryScores.age = rBA.categoryScores.age ∧
      rAB.categoryScores.location = rBA.categoryScores.location ∧
      rAB.categoryScores.educationCareer = rBA.categoryScores.educationCareer ∧
      rAB.categoryScores.lifestyle = rBA.categoryScores.lifestyle ∧
      rAB.categoryScores.familyValues = rBA.categoryScores.familyValues ∧
      rAB.overallScore = rBA.overallScore ∧
      rAB.radarGraphData.values = rBA.radarGraphData.values ∧
      rAB.insights = rBA.insights ∧
      rAB.symbolicIndicator = rBA.symbolicIndicator ∧
      rAB.disclaimer = rBA.disclaimer :=
  generateNaradMuniCompatibility_symm_of_no_preferences asciiToLowerCase sampleSubject
    sampleCandidate (some { includeSymbolic := some true }) [] (by decide) rfl rfl

/-! ## Extremes of the overall score -/

/-- Each table value is the top score or falls short of it by a full step; the age
score without preferences is at least 20. -/
theorem scoreValues_steps :
    (∀ v ∈ ageScoreValues, 0 ≤ v ∧ (v = 100 ∨ v ≤ 90)) ∧
    (∀ v ∈ locationScoreValues, 0 ≤ v ∧ (v = 100 ∨ v ≤ 70)) ∧
    (∀ v ∈ educationCareerScoreValues, 70 ≤ v ∧ (v = 100 ∨ v ≤ 70)) ∧
    (∀ v ∈ lifestyleScoreValues, 20 ≤ v ∧ (v = 100 ∨ v ≤ 90)) ∧
    (∀ v ∈ familyValuesScoreValues, 30 ≤ v ∧ (v = 100 ∨ v ≤ 70)) := by
  decide

/-- Exact half-up rounding over the value tables: 100 only for five 100s, otherwise at
most 99, and never below 22. -/
theorem exactRoundedScore_extremes {a l e s f : Int}
    (ha : a ∈ ageScoreValues) (hl : l ∈ locationScoreValues)
    (he : e ∈ educationCareerScoreValues) (hs : s ∈ lifestyleScoreValues)
    (hf : f ∈ familyValuesScoreValues) :
    (exactRoundedScore a l e s f = 100 ↔
      a = 100 ∧ l = 100 ∧ e = 100 ∧ s = 100 ∧ f = 100) ∧
    (¬ (a = 100 ∧ l = 100 ∧ e = 100 ∧ s = 100 ∧ f = 100) →
      exactRoundedScore a l e s f ≤ 99) ∧
    22 ≤ exactRoundedScore a l e s f := by
  obtain ⟨hA, hL, hE, hS, hF⟩ := scoreValues_steps
  have h1 := hA a ha
  have h2 := hL l hl
  have h3 := hE e he
  have h4 := hS s hs
  have h5 := hF f hf
  unfold exactRoundedScore
  refine ⟨?_, ?_, ?_⟩ <;> omega

/-- C27: on an eligible pair (integer ages and bounds) the overall score is 100 if and
only if all five category scores are 100; any imperfect pair scores at most 99. -/
theorem overallScore_100_iff_all_100
    (toLowerCase : JSString → JSString) (myProfile candidateProfile : Profile)
    (options : Option EngineOptions) (console : Console)
    (hg : myProfile.gender ≠ candidateProfile.gender) :
    ∃ r, (generateNaradMuniCompatibility toLowerCase myProfile candidateProfile options
        console).1 = some r ∧
      (r.overallScore = 100 ↔
        r.categoryScores.age = 100 ∧ r.categoryScores.location = 100 ∧
        r.categoryScores.educationCareer = 100 ∧ r.categoryScores.lifestyle = 100 ∧
        r.categoryScores.familyValues = 100) ∧
      (¬ (r.categoryScores.age = 100 ∧ r.categoryScores.location = 100 ∧
          r.categoryScores.educationCareer = 100 ∧ r.categoryScores.lifestyle = 100 ∧
          r.categoryScores.familyValues = 100) → r.overallScore ≤ 99) := by
  rw [generateNaradMuniCompatibility_of_ne toLowerCase _ _ options console hg]
  have ha := calculateAgeScore_mem myProfile candidateProfile
  have hl := calculateLocationScore_mem toLowerCase myProfile candidateProfile
  have he := calculateEducationCareerScore_mem toLowerCase myProfile candidateProfile
  have hs := calculateLifestyleScore_mem myProfile candidateProfile
  have hf := calculateFamilyValuesScore_mem myProfile candidateProfile
  have key := mathRound_weightedSum_table _ ha _ hl _ he _ hs _ hf
  obtain ⟨h100, h99, _⟩ := exactRoundedScore_extremes ha hl he hs hf
  refine ⟨_, rfl, ?_, ?_⟩
  · show mathRound _ = 100 ↔ _
    rw [key]
    exact h100
  · show _ → mathRound _ ≤ 99
    rw [key]
    exact h99

/-- Witness for C27: the sample pair differs in city, diet, drinking and family values
and scores below 100. -/
theorem overallScore_100_iff_all_100_witness :
    sampleSubject.gender ≠ sampleCandidate.gender ∧
    ∃ r, (generateNaradMuniCompatibility asciiToLowerCase sampleSubject sampleCandidate none
        []).1 = some r ∧
      (r.overallScore = 100 ↔
        r.categoryScores.age = 100 ∧ r.categoryScores.location = 100 ∧
        r.categoryScores.educationCareer = 100 ∧ r.categoryScores.lifestyle = 100 ∧
        r.categoryScores.familyValues = 100) ∧
      (¬ (r.categoryScores.age = 100 ∧ r.categoryScores.location = 100 ∧
          r.categoryScores.educationCareer = 100 ∧ r.categoryScores.lifestyle = 100 ∧
          r.categoryScores.familyValues = 100) → r.overallScore ≤ 99) :=
  ⟨by decide, overallScore_100_iff_all_100 asciiToLowerCase sampleSubject sampleCandidate
    none [] (by decide)⟩

/-- Without an age-range preference the age score is at least 20. -/
theorem calculateAgeScore_ge_20_of_no_preferences (p1 p2 : Profile)
    (hp : p1.preferences = none) : 20 ≤ calculateAgeScore p1 p2 := by
  simp only [calculateAgeScore, hp]
  split_ifs <;> decide

/-- C28: on every eligible pair the overall score is at least 22, and 22 is attained:
the least category scores are age 0 (reached with an age range; at least 20 without),
location 0, educationCareer 70, lifestyle 20 and familyValues 30, and a pair with
exactly these scores has overall score 22. -/
theorem overallScore_ge_22 :
    (∀ (toLowerCase : JSString → JSString) (myProfile candidateProfile : Profile)
        (options : Option EngineOptions) (console : Console),
      myProfile.gender ≠ candidateProfile.gender →
      ∃ r, (generateNaradMuniCompatibility toLowerCase myProfile candidateProfile options
          console).1 = some r ∧
        22 ≤ r.overallScore ∧ 0 ≤ r.categoryScores.age ∧ 0 ≤ r.categoryScores.location ∧
        70 ≤ r.categoryScores.educationCareer ∧ 20 ≤ r.categoryScores.lifestyle ∧
        30 ≤ r.categoryScores.familyValues ∧
        (myProfile.preferences = none → 20 ≤ r.categoryScores.age)) ∧
    (∃ r, (generateNaradMuniCompatibility asciiToLowerCase scenarioA farCandidate none
          []).1 = some r ∧
        r.categoryScores.age = 0 ∧ r.categoryScores.location = 0 ∧
        r.categoryScores.educationCareer = 70 ∧ r.categoryScores.lifestyle = 20 ∧
        r.categoryScores.familyValues = 30 ∧ r.overallScore = 22) := by
  constructor
  · intro toLowerCase myProfile candidateProfile options console hg
    rw [generateNaradMuniCompatibility_of_ne toLowerCase _ _ options console hg]
    have ha := calculateAgeScore_mem myProfile candidateProfile
    have hl := calculateLocationScore_mem toLowerCase myProfile candidateProfile
    have he := calculateEducationCareerScore_mem toLowerCase myProfile candidateProfile
    have hs := calculateLifestyleScore_mem myProfile candidateProfile
    have hf := calculateFamilyValuesScore_mem myProfile candidateProfile
    have key := mathRound_weightedSum_table _ ha _ hl _ he _ hs _ hf
    obtain ⟨_, _, h22⟩ := exactRoundedScore_extremes ha hl he hs hf
    obtain ⟨hA, hL, hE, hS, hF⟩ := scoreValues_steps
    refine ⟨_, rfl, ?_, (hA _ ha).1, (hL _ hl).1, (hE _ he).1, (hS _ hs).1, (hF _ hf).1,
      fun hp => calculateAgeScore_ge_20_of_no_preferences _ _ hp⟩
    show 22 ≤ mathRound _
    rw [key]
    exact h22
  · rw [generateNaradMuniCompatibility_of_ne asciiToLowerCase scenarioA farCandidate none []
      (by decide)]
    exact ⟨_, rfl, by decide, by decide, by decide, by decide, by decide, by decide⟩

/-! ## Numbers against integers -/

/-- Magnitudes below `2^53` are doubles already. -/
theorem roundMagnitude_of_lt {n : Nat} (h : n < 2 ^ 53) : roundMagnitude n = n := by
  unfold roundMagnitude
  have hb : bitIndex n < 53 := by
    rcases Nat.eq_zero_or_pos n with h0 | hpos
    · subst h0
      decide
    · have hs := (bitIndex_spec n hpos).1
      by_contra hc
      have : 2 ^ 53 ≤ 2 ^ bitIndex n := Nat.pow_le_pow_right (by norm_num) (by omega)
      omega
  simp [hb]

/-- Integers of magnitude below `2^53` are doubles already. -/
theorem roundBinary64_of_lt {n : Int} (h : n.natAbs < 2 ^ 53) : roundBinary64 n = n := by
  unfold roundBinary64
  rw [roundMagnitude_of_lt h]
  exact Int.sign_mul_natAbs n

/-- Binary64 subtraction of integers is exact below `2^53`. -/
theorem JSNumber.sub_ofInt {a b : Int} (h : (a - b).natAbs < 2 ^ 53) :
    JSNumber.sub (JSNumber.ofInt a) (JSNumber.ofInt b) = JSNumber.ofInt (a - b) := by
  simp only [JSNumber.sub, JSNumber.ofInt, JSNumber.round, JSNumber.numAt, Nat.max_self,
    Nat.sub_self, pow_zero, mul_one]
  rw [roundBinary64_of_lt h]

/-- Binary64 multiplication of integers is exact below `2^53`. -/
theorem JSNumber.mul_ofInt {a b : Int} (h : (a * b).natAbs < 2 ^ 53) :
    JSNumber.mul (JSNumber.ofInt a) (JSNumber.ofInt b) = JSNumber.ofInt (a * b) := by
  simp only [JSNumber.mul, JSNumber.ofInt, JSNumber.round, Nat.add_zero]
  rw [roundBinary64_of_lt h]

/-- Comparison of integers. -/
theorem JSNumber.le_ofInt (a b : Int) :
    JSNumber.le (JSNumber.ofInt a) (JSNumber.ofInt b) = decide (a ≤ b) := by
  simp only [JSNumber.le, JSNumber.ofInt, JSNumber.numAt, Nat.max_self, Nat.sub_self,
    pow_zero, mul_one]

/-- `Math.abs` of an integer. -/
theorem JSNumber.abs_ofInt (a : Int) :
    JSNumber.abs (JSNumber.ofInt a) = JSNumber.ofInt |a| := rfl

/-- `Math.min` of integers. -/
theorem JSNumber.min_ofInt (a b : Int) :
    JSNumber.min (JSNumber.ofInt a) (JSNumber.ofInt b) = JSNumber.ofInt (Min.min a b) := by
  unfold JSNumber.min
  rw [JSNumber.le_ofInt]
  by_cases h : a ≤ b
  · simp [h]
  · simp [h, min_eq_right (le_of_not_le h)]

/-- `Math.max` of integers. -/
theorem JSNumber.max_ofInt (a b : Int) :
    JSNumber.max (JSNumber.ofInt a) (JSNumber.ofInt b) = JSNumber.ofInt (Max.max a b) := by
  unfold JSNumber.max
  rw [JSNumber.le_ofInt]
  by_cases h : a ≤ b
  · simp [h]
  · simp [h, max_eq_left (le_of_not_le h)]

/-- On integer ages and bounds of magnitude up to `2^40` the number-valued age score
is the integer one: the source lines give the same result on both readings. -/
theorem calculateAgeScoreNumber_ofInt (p1 p2 : Profile)
    (h1 : |p1.age| ≤ 2 ^ 40) (h2 : |p2.age| ≤ 2 ^ 40)
    (hr : ∀ prefs, p1.preferences = some prefs →
      |prefs.ageRange.min| ≤ 2 ^ 40 ∧ |prefs.ageRange.max| ≤ 2 ^ 40) :
    calculateAgeScoreNumber (JSNumber.ofInt p1.age)
        (p1.preferences.map fun prefs =>
          { min := JSNumber.ofInt prefs.ageRange.min, max := JSNumber.ofInt prefs.ageRange.max })
        (JSNumber.ofInt p2.age)
      = JSNumber.ofInt (calculateAgeScore p1 p2) := by
  have e1 := abs_le.mp h1
  have e2 := abs_le.mp h2
  cases hp : p1.preferences with
  | none =>
    have hsub : JSNumber.sub (JSNumber.ofInt p1.age) (JSNumber.ofInt p2.age)
        = JSNumber.ofInt (p1.age - p2.age) := JSNumber.sub_ofInt (by omega)
    simp only [calculateAgeScoreNumber, calculateAgeScore, hp, Option.map_none', hsub,
      JSNumber.abs_ofInt, JSNumber.le_ofInt, decide_eq_true_eq]
    split_ifs <;> rfl
  | some prefs =>
    obtain ⟨h3, h4⟩ := hr prefs hp
    have e3 := abs_le.mp h3
    have e4 := abs_le.mp h4
    have hsub1 : JSNumber.sub (JSNumber.ofInt p2.age) (JSNumber.ofInt prefs.ageRange.min)
        = JSNumber.ofInt (p2.age - prefs.ageRange.min) := JSNumber.sub_ofInt (by omega)
    have hsub2 : JSNumber.sub (JSNumber.ofInt p2.age) (JSNumber.ofInt prefs.ageRange.max)
        = JSNumber.ofInt (p2.age - prefs.ageRange.max) := JSNumber.sub_ofInt (by omega)
    have hd0 : 0 ≤ min |p2.age - prefs.ageRange.min| |p2.age - prefs.ageRange.max| :=
      le_min (abs_nonneg _) (abs_nonneg _)
    have hd1 : min |p2.age - prefs.ageRange.min| |p2.age - prefs.ageRange.max| ≤ 2 ^ 41 := by
      have : |p2.age - prefs.ageRange.min| ≤ 2 ^ 41 := by
        rw [abs_le]
        constructor <;> omega
      exact le_trans (min_le_left _ _) this
    have hmul : JSNumber.mul
        (JSNumber.ofInt (min |p2.age - prefs.ageRange.min| |p2.age - prefs.ageRange.max|))
        (JSNumber.ofInt 10)
        = JSNumber.ofInt
          (min |p2.age - prefs.ageRange.min| |p2.age - prefs.ageRange.max| * 10) :=
      JSNumber.mul_ofInt (by omega)
    have hsub3 : JSNumber.sub (JSNumber.ofInt 100) (JSNumber.ofInt
          (min |p2.age - prefs.ageRange.min| |p2.age - prefs.ageRange.max| * 10))
        = JSNumber.ofInt
          (100 - min |p2.age - prefs.ageRange.min| |p2.age - prefs.ageRange.max| * 10) :=
      JSNumber.sub_ofInt (by omega)
    simp only [calculateAgeScoreNumber, calculateAgeScore, hp, Option.map_some', hsub1, hsub2,
      JSNumber.abs_ofInt, JSNumber.min_ofInt, hmul, hsub3, JSNumber.max_ofInt,
      JSNumber.le_ofInt, decide_eq_true_eq, ge_iff_le]
    split_ifs <;> rfl

/-- With an integer age score the number-valued weighted sum is the integer one, over
`2^55`. -/
theorem weightedSumNumber_ofInt (a l e s f : Int) :
    weightedSumNumber (JSNumber.ofInt a) l e s f
      = { num := weightedSum a l e s f, scale := unitBits } := by
  simp only [weightedSumNumber, weightedSum, JSNumber.add, JSNumber.mul, JSNumber.round,
    JSNumber.ofInt, JSNumber.numAt, fmul, fadd, Nat.zero_add, Nat.max_self, Nat.sub_self,
    pow_zero, mul_one]

/-- `Math.round` of a numerator over `2^55`, on both readings. -/
theorem JSNumber.mathRound_units (x : Units) :
    JSNumber.mathRound { num := x, scale := unitBits } = NaradMuni.mathRound x := by
  unfold JSNumber.mathRound NaradMuni.mathRound unitBits
  norm_num
  omega

/-- On integer ages and bounds of magnitude up to `2^40` and different genders, the
number-valued steps 2 and 3 return the age score and the overall score of the engine. -/
theorem ageAndOverallScoreNumber_ofInt (toLowerCase : JSString → JSString)
    (myProfile candidateProfile : Profile) (options : Option EngineOptions)
    (console : Console) (hg : myProfile.gender ≠ candidateProfile.gender)
    (h1 : |myProfile.age| ≤ 2 ^ 40) (h2 : |candidateProfile.age| ≤ 2 ^ 40)
    (hr : ∀ prefs, myProfile.preferences = some prefs →
      |prefs.ageRange.min| ≤ 2 ^ 40 ∧ |prefs.ageRange.max| ≤ 2 ^ 40) :
    ∃ r, (generateNaradMuniCompatibility toLowerCase myProfile candidateProfile options
        console).1 = some r ∧
      ageAndOverallScoreNumber toLowerCase myProfile candidateProfile
          (JSNumber.ofInt myProfile.age)
          (myProfile.preferences.map fun prefs =>
            { min := JSNumber.ofInt prefs.ageRange.min
              max := JSNumber.ofInt prefs.ageRange.max })
          (JSNumber.ofInt candidateProfile.age)
        = (JSNumber.ofInt r.categoryScores.age, r.overallScore) := by
  rw [generateNaradMuniCompatibility_of_ne toLowerCase _ _ options console hg]
  refine ⟨_, rfl, ?_⟩
  simp only [ageAndOverallScoreNumber,
    calculateAgeScoreNumber_ofInt myProfile candidateProfile h1 h2 hr,
    weightedSumNumber_ofInt, JSNumber.mathRound_units]

/-- The bound `thirtyAndOneSixth` is a double (53 significant bits) within half a unit
in the last place of `30 + 1/6`. -/
theorem thirtyAndOneSixth_nearest :
    bitIndex thirtyAndOneSixth.num.natAbs = 52 ∧
    |6 * thirtyAndOneSixth.num - 181 * 2 ^ thirtyAndOneSixth.scale| ≤ 3 := by
  decide

/-- C2, counterexample: with a fractional bound the overall score is not the exact
half-up rounding of the returned scores.  For the end-to-end pair with the subject's
range `{min: 30 + 1/6, max: 35}` and the candidate aged 30, the age score is
`27678372709881168 / 2^48` (98.33333333333331), the other four scores are 100, the
binary64 sum is 99.5 and `overallScore` is 100, while the exact weighted sum of the
returned scores rounds half up to 99. -/
theorem overallScore_fractional_bound_counterexample :
    scenarioGroom.gender ≠ scenarioBride.gender ∧
    (ageAndOverallScoreNumber asciiToLowerCase scenarioGroom scenarioBride
        (JSNumber.ofInt 30) (some fractionalRange) (JSNumber.ofInt 30)).1.num
      = 27678372709881168 ∧
    (ageAndOverallScoreNumber asciiToLowerCase scenarioGroom scenarioBride
        (JSNumber.ofInt 30) (some fractionalRange) (JSNumber.ofInt 30)).1.scale = 48 ∧
    calculateLocationScore asciiToLowerCase scenarioGroom scenarioBride = 100 ∧
    calculateEducationCareerScore asciiToLowerCase scenarioGroom scenarioBride = 100 ∧
    calculateLifestyleScore scenarioGroom scenarioBride = 100 ∧
    calculateFamilyValuesScore scenarioGroom scenarioBride = 100 ∧
    (ageAndOverallScoreNumber asciiToLowerCase scenarioGroom scenarioBride
        (JSNumber.ofInt 30) (some fractionalRange) (JSNumber.ofInt 30)).2 = 100 ∧
    exactRoundedScoreNumber
        (ageAndOverallScoreNumber asciiToLowerCase scenarioGroom scenarioBride
          (JSNumber.ofInt 30) (some fractionalRange) (JSNumber.ofInt 30)).1
        100 100 100 100 = 99 ∧
    (ageAndOverallScoreNumber asciiToLowerCase scenarioGroom scenarioBride
        (JSNumber.ofInt 30) (some fractionalRange) (JSNumber.ofInt 30)).2
      ≠ exactRoundedScoreNumber
        (ageAndOverallScoreNumber asciiToLowerCase scenarioGroom scenarioBride
          (JSNumber.ofInt 30) (some fractionalRange) (JSNumber.ofInt 30)).1
        100 100 100 100 := by
  refine ⟨by decide, by decide, by decide, by decide, by decide, by decide, by decide,
    by decide, by decide, by decide⟩

/-- On an integer age score the exact rounding of the number reading is the integer one. -/
theorem exactRoundedScoreNumber_ofInt (a l e s f : Int) :
    exactRoundedScoreNumber (JSNumber.ofInt a) l e s f = exactRoundedScore a l e s f := by
  simp only [exactRoundedScoreNumber, exactRoundedScore, JSNumber.ofInt, pow_zero, mul_one]
  congr 1
  ring

end NaradMuni

namespace ImageLogic

open NaradMuni (JSString jsString)

/-! ## Image count rules -/

/-- The two messages, with the counts written out. -/
theorem imageRule_messages :
    "Minimum " ++ toString IMAGE_RULES.MIN_COUNT ++ " images required."
      = "Minimum 4 images required." ∧
    "Maximum " ++ toString IMAGE_RULES.MAX_COUNT ++ " images allowed."
      = "Maximum 8 images allowed." := by
  decide

/-- The validator in closed form: the errors by the three ranges of the count. -/
theorem validateImageSet_errors {Blob : Type} (images : List (ImageFile Blob)) :
    (validateImageSet images).errors =
      (if images.length < 4 then ["Minimum 4 images required."]
        else if 8 < images.length then ["Maximum 8 images allowed."] else []) ∧
    (validateImageSet images).isValid = ((validateImageSet images).errors.length == 0) := by
  obtain ⟨hmin, hmax⟩ := imageRule_messages
  refine ⟨?_, rfl⟩
  show (if 8 < images.length then
      (if images.length < 4 then
        [] ++ ["Minimum " ++ toString IMAGE_RULES.MIN_COUNT ++ " images required."]
        else []) ++ ["Maximum " ++ toString IMAGE_RULES.MAX_COUNT ++ " images allowed."]
      else (if images.length < 4 then
        [] ++ ["Minimum " ++ toString IMAGE_RULES.MIN_COUNT ++ " images required."]
        else [])) = _
  rw [hmin, hmax]
  by_cases h4 : images.length < 4
  · have h8 : ¬ 8 < images.length := by omega
    simp [h4, h8]
  · by_cases h8 : 8 < images.length <;> simp [h4, h8]

/-- C19: for a list of `n` images `isValid` holds iff `4 ≤ n ≤ 8`; `errors` is empty iff
`isValid`; it is exactly the minimum message when `n < 4` and exactly the maximum
message when `n > 8`, never both; the result depends on the list through its length
only. -/
theorem validateImageSet_count_rules {Blob : Type} (images : List (ImageFile Blob)) :
    ((validateImageSet images).isValid = true ↔ 4 ≤ images.length ∧ images.length ≤ 8) ∧
    ((validateImageSet images).errors = [] ↔ (validateImageSet images).isValid = true) ∧
    (images.length < 4 →
      (validateImageSet images).errors = ["Minimum 4 images required."]) ∧
    (8 < images.length →
      (validateImageSet images).errors = ["Maximum 8 images allowed."]) ∧
    ¬ ("Minimum 4 images required." ∈ (validateImageSet images).errors ∧
      "Maximum 8 images allowed." ∈ (validateImageSet images).errors) ∧
    (∀ other : List (ImageFile Blob), other.length = images.length →
      validateImageSet other = validateImageSet images) := by
  have hne : "Minimum 4 images required." ≠ "Maximum 8 images allowed." := by decide
  obtain ⟨herr, hvalid⟩ := validateImageSet_errors images
  refine ⟨?_, ?_, ?_, ?_, ?_, ?_⟩
  · rw [hvalid, herr]
    split_ifs <;> simp <;> omega
  · rw [hvalid, herr]
    split_ifs <;> simp
  · intro h
    rw [herr, if_pos h]
  · intro h
    rw [herr, if_neg (by omega), if_pos h]
  · rw [herr]
    split_ifs <;> simp [hne, hne.symm]
  · intro other h
    unfold validateImageSet
    rw [h]

/-- An image list of length three, for the count rules. -/
theorem validateImageSet_three_images :
    (validateImageSet (List.replicate 3 ({ uri := [], size := 0 } : ImageFile Unit))).isValid
      = false ∧
    (validateImageSet (List.replicate 3 ({ uri := [], size := 0 } : ImageFile Unit))).errors
      = ["Minimum 4 images required."] := by
  decide

/-! ## Duplicate detection -/

section Detect

variable {Image : Type} (generateImageHash : Image → JSString)
  (existingHashes : List JSString)

/-- A duplicate index lies inside the list. -/
theorem isDuplicateAt_lt {images : List Image} {k : Nat}
    (hd : IsDuplicateAt generateImageHash existingHashes images k) : k < images.length := by
  obtain ⟨img, hk, _⟩ := hd
  by_contra hlt
  rw [List.getElem?_eq_none (by omega)] at hk
  exact Option.noConfusion hk

/-- Appending an image does not change which earlier indices are duplicates. -/
theorem isDuplicateAt_append_of_lt (visited : List Image) (img : Image) {k : Nat}
    (hk : k < visited.length) :
    IsDuplicateAt generateImageHash existingHashes (visited ++ [img]) k ↔
      IsDuplicateAt generateImageHash existingHashes visited k := by
  unfold IsDuplicateAt
  rw [List.getElem?_append_left hk]
  constructor
  · rintro ⟨x, hx, h | ⟨j, hj, e, he, heq⟩⟩
    · exact ⟨x, hx, Or.inl h⟩
    · rw [List.getElem?_append_left (by omega)] at he
      exact ⟨x, hx, Or.inr ⟨j, hj, e, he, heq⟩⟩
  · rintro ⟨x, hx, h | ⟨j, hj, e, he, heq⟩⟩
    · exact ⟨x, hx, Or.inl h⟩
    · refine ⟨x, hx, Or.inr ⟨j, hj, e, ?_, heq⟩⟩
      rw [List.getElem?_append_left (by omega)]
      exact he

/-- The appended image is a duplicate iff its hash is known already. -/
theorem isDuplicateAt_append_length (visited : List Image) (img : Image) :
    IsDuplicateAt generateImageHash existingHashes (visited ++ [img]) visited.length ↔
      generateImageHash img ∈ existingHashes ∨
        generateImageHash img ∈ visited.map generateImageHash := by
  unfold IsDuplicateAt
  have hlast : (visited ++ [img])[visited.length]? = some img := by
    rw [List.getElem?_append_right (Nat.le_refl _)]
    simp
  constructor
  · rintro ⟨x, hx, h | ⟨j, hj, e, he, heq⟩⟩
    · rw [hlast] at hx
      cases hx
      exact Or.inl h
    · rw [hlast] at hx
      cases hx
      rw [List.getElem?_append_left hj] at he
      refine Or.inr (List.mem_map.mpr ⟨e, ?_, heq⟩)
      exact List.getElem?_mem he
  · rintro (h | h)
    · exact ⟨img, hlast, Or.inl h⟩
    · obtain ⟨e, hmem, heq⟩ := List.mem_map.mp h
      obtain ⟨j, hj, hje⟩ := List.getElem_of_mem hmem
      refine ⟨img, hlast, Or.inr ⟨j, hj, e, ?_, heq⟩⟩
      rw [List.getElem?_append_left hj, List.getElem?_eq_getElem hj, hje]

/-- The invariant holds before the first image. -/
theorem detectInvariant_init :
    DetectInvariant generateImageHash existingHashes ([] : List Image)
      { duplicates := [], generatedHashes := [], currentHashes := existingHashes } where
  current := by intro x; simp
  dups := by
    intro k
    constructor
    · intro h
      cases h
    · intro h
      have := isDuplicateAt_lt generateImageHash existingHashes h
      simp at this
  gen := by simp [List.enum]
  sorted := List.Pairwise.nil
  nodup := List.nodup_nil
  fresh := by intro x hx; cases hx
  len := rfl

/-- Generated hashes are hashes of visited images. -/
theorem generated_mem_visited {visited : List Image} {st : DetectState}
    (inv : DetectInvariant generateImageHash existingHashes visited st) {x : JSString}
    (hx : x ∈ st.generatedHashes) : x ∈ visited.map generateImageHash := by
  rw [inv.gen] at hx
  obtain ⟨p, hp, rfl⟩ := List.mem_map.mp hx
  have hp2 := (List.mem_filter.mp hp).1
  exact List.mem_map.mpr ⟨p.2, List.getElem?_mem (List.mem_enum_iff_getElem?.mp hp2), rfl⟩

/-- Recorded duplicate indices are indices of visited images. -/
theorem duplicates_lt {visited : List Image} {st : DetectState}
    (inv : DetectInvariant generateImageHash existingHashes visited st) {k : Nat}
    (hk : k ∈ st.duplicates) : k < visited.length :=
  isDuplicateAt_lt generateImageHash existingHashes ((inv.dups k).mp hk)

/-- The filter over earlier indices ignores a change at the current index. -/
theorem filter_enum_congr (visited : List Image) (dups dups2 : List Nat)
    (h : ∀ k, k < visited.length → (k ∈ dups2 ↔ k ∈ dups)) :
    (visited.enum.filter fun p => decide (p.1 ∉ dups2)) =
      (visited.enum.filter fun p => decide (p.1 ∉ dups)) := by
  apply List.filter_congr
  intro p hp
  have hlt := List.fst_lt_of_mem_enum hp
  simp only [h p.1 hlt]

/-- The invariant survives the branch `currentHashes.has(hash)`. -/
theorem detectInvariant_duplicate {visited : List Image} {st : DetectState}
    (inv : DetectInvariant generateImageHash existingHashes visited st) (img : Image)
    (hmem : generateImageHash img ∈ st.currentHashes) :
    DetectInvariant generateImageHash existingHashes (visited ++ [img])
      { st with duplicates := st.duplicates ++ [visited.length] } where
  current := by
    intro x
    simp only [List.map_append, List.map_cons, List.map_nil, List.mem_append,
      List.mem_singleton]
    rw [inv.current x]
    constructor
    · rintro (h | h)
      · exact Or.inl h
      · exact Or.inr (Or.inl h)
    · rintro (h | h | h)
      · exact Or.inl h
      · exact Or.inr h
      · rw [h]
        exact (inv.current _).mp hmem
  dups := by
    intro k
    simp only [List.mem_append, List.mem_singleton]
    constructor
    · rintro (h | h)
      · have hlt := duplicates_lt generateImageHash existingHashes inv h
        exact (isDuplicateAt_append_of_lt generateImageHash existingHashes visited img
          hlt).mpr ((inv.dups k).mp h)
      · rw [h]
        exact (isDuplicateAt_append_length generateImageHash existingHashes visited
          img).mpr ((inv.current _).mp hmem)
    · intro h
      have hlt := isDuplicateAt_lt generateImageHash existingHashes h
      simp only [List.length_append, List.length_singleton] at hlt
      by_cases hk : k < visited.length
      · exact Or.inl ((inv.dups k).mpr
          ((isDuplicateAt_append_of_lt generateImageHash existingHashes visited img
            hk).mp h))
      · exact Or.inr (by omega)
  gen := by
    show st.generatedHashes = _
    rw [List.enum_append, List.filter_append]
    have h1 := filter_enum_congr visited st.duplicates (st.duplicates ++ [visited.length])
      (by
        intro k hk
        simp only [List.mem_append, List.mem_singleton]
        constructor
        · rintro (h | h)
          · exact h
          · omega
        · intro h
          exact Or.inl h)
    rw [h1]
    simp only [List.enumFrom_cons, List.enumFrom_nil, List.map_append]
    rw [← inv.gen]
    simp
  sorted := by
    show (st.duplicates ++ [visited.length]).Pairwise (· < ·)
    rw [List.pairwise_append]
    refine ⟨inv.sorted, List.pairwise_singleton _ _, ?_⟩
    intro a ha b hb
    rw [List.mem_singleton.mp hb]
    exact duplicates_lt generateImageHash existingHashes inv ha
  nodup := inv.nodup
  fresh := inv.fresh
  len := by
    show (st.duplicates ++ [visited.length]).length + st.generatedHashes.length = _
    have := inv.len
    simp only [List.length_append, List.length_singleton]
    omega

/-- The invariant survives the branch that records a new hash. -/
theorem detectInvariant_fresh {visited : List Image} {st : DetectState}
    (inv : DetectInvariant generateImageHash existingHashes visited st) (img : Image)
    (hmem : generateImageHash img ∉ st.currentHashes) :
    DetectInvariant generateImageHash existingHashes (visited ++ [img])
      { st with
        currentHashes := st.currentHashes ++ [generateImageHash img]
        generatedHashes := st.generatedHashes ++ [generateImageHash img] } where
  current := by
    intro x
    simp only [List.map_append, List.map_cons, List.map_nil, List.mem_append,
      List.mem_singleton]
    rw [inv.current x]
    constructor
    · rintro ((h | h) | h)
      · exact Or.inl h
      · exact Or.inr (Or.inl h)
      · exact Or.inr (Or.inr h)
    · rintro (h | h | h)
      · exact Or.inl (Or.inl h)
      · exact Or.inl (Or.inr h)
      · exact Or.inr h
  dups := by
    intro k
    show k ∈ st.duplicates ↔ _
    constructor
    · intro h
      have hlt := duplicates_lt generateImageHash existingHashes inv h
      exact (isDuplicateAt_append_of_lt generateImageHash existingHashes visited img
        hlt).mpr ((inv.dups k).mp h)
    · intro h
      have hlt := isDuplicateAt_lt generateImageHash existingHashes h
      simp only [List.length_append, List.length_singleton] at hlt
      by_cases hk : k < visited.length
      · exact (inv.dups k).mpr
          ((isDuplicateAt_append_of_lt generateImageHash existingHashes visited img
            hk).mp h)
      · have hk2 : k = visited.length := by omega
        rw [hk2] at h
        exact absurd ((inv.current _).mpr
          ((isDuplicateAt_append_length generateImageHash existingHashes visited
            img).mp h)) hmem
  gen := by
    show st.generatedHashes ++ [generateImageHash img] =
      (((visited ++ [img]).enum.filter fun p => decide (p.1 ∉ st.duplicates)).map
        fun p => generateImageHash p.2)
    have hn : visited.length ∉ st.duplicates := by
      intro h
      have := duplicates_lt generateImageHash existingHashes inv h
      omega
    rw [List.enum_append, List.filter_append, List.map_append, ← inv.gen]
    simp [hn]
  sorted := inv.sorted
  nodup := by
    show (st.generatedHashes ++ [generateImageHash img]).Nodup
    rw [List.nodup_append]
    refine ⟨inv.nodup, List.nodup_singleton _, ?_⟩
    intro a ha hb
    rw [List.mem_singleton.mp hb] at ha
    exact hmem ((inv.current _).mpr
      (Or.inr (generated_mem_visited generateImageHash existingHashes inv ha)))
  fresh := by
    intro x hx
    have hx2 : x ∈ st.generatedHashes ++ [generateImageHash img] := hx
    rcases List.mem_append.mp hx2 with h | h
    · exact inv.fresh x h
    · rw [List.mem_singleton.mp h]
      intro hex
      exact hmem ((inv.current _).mpr (Or.inl hex))
  len := by
    show st.duplicates.length + (st.generatedHashes ++ [generateImageHash img]).length = _
    have := inv.len
    simp only [List.length_append, List.length_singleton]
    omega

/-- The loop carries the invariant from the visited images to the whole list. -/
theorem detectLoop_invariant (rest : List Image) :
    ∀ (visited : List Image) (st : DetectState),
      DetectInvariant generateImageHash existingHashes visited st →
      DetectInvariant generateImageHash existingHashes (visited ++ rest)
        (detectLoop generateImageHash rest visited.length st) := by
  induction rest with
  | nil =>
    intro visited st inv
    rw [List.append_nil]
    exact inv
  | cons img rest ih =>
    intro visited st inv
    have happ : visited ++ img :: rest = (visited ++ [img]) ++ rest := by simp
    have hlen : visited.length + 1 = (visited ++ [img]).length := by simp
    rw [happ]
    unfold detectLoop
    simp only
    split_ifs with hmem
    · rw [hlen]
      exact ih _ _ (detectInvariant_duplicate generateImageHash existingHashes inv img hmem)
    · rw [hlen]
      exact ih _ _ (detectInvariant_fresh generateImageHash existingHashes inv img hmem)

/-- The invariant holds of what `detectDuplicates` returns. -/
theorem detectDuplicates_invariant (newImages : List Image) :
    DetectInvariant generateImageHash existingHashes newImages
      { duplicates := (detectDuplicates generateImageHash newImages existingHashes).duplicates
        generatedHashes :=
          (detectDuplicates generateImageHash newImages existingHashes).newHashes
        currentHashes := (detectLoop generateImageHash newImages 0
          { duplicates := [], generatedHashes := [],
            currentHashes := existingHashes }).currentHashes } := by
  have h := detectLoop_invariant generateImageHash existingHashes newImages []
    _ (detectInvariant_init generateImageHash existingHashes)
  simpa using h

/-- C20: `detectDuplicates` reports index `i` iff the hash of `newImages[i]` is among
`existingHashes` or equals the hash of an earlier new image; `newHashes` lists the
hashes of the remaining indices in order; hence `newHashes` has no repeated element
and shares none with `existingHashes`, `duplicates` is strictly increasing, and the two
lengths add up to the number of new images. -/
theorem detectDuplicates_spec (newImages : List Image) :
    (∀ i, i ∈ (detectDuplicates generateImageHash newImages existingHashes).duplicates ↔
      ∃ img, newImages[i]? = some img ∧
        (generateImageHash img ∈ existingHashes ∨
          ∃ j, j < i ∧ ∃ earlier, newImages[j]? = some earlier ∧
            generateImageHash earlier = generateImageHash img)) ∧
    (detectDuplicates generateImageHash newImages existingHashes).newHashes =
      (newImages.enum.filter fun p => decide
          (p.1 ∉ (detectDuplicates generateImageHash newImages existingHashes).duplicates)).map
        (fun p => generateImageHash p.2) ∧
    (detectDuplicates generateImageHash newImages existingHashes).newHashes.Nodup ∧
    (∀ x ∈ (detectDuplicates generateImageHash newImages existingHashes).newHashes,
      x ∉ existingHashes) ∧
    (detectDuplicates generateImageHash newImages existingHashes).duplicates.Pairwise
      (· < ·) ∧
    (detectDuplicates generateImageHash newImages existingHashes).duplicates.length +
      (detectDuplicates generateImageHash newImages existingHashes).newHashes.length
        = newImages.length := by
  have inv := detectDuplicates_invariant generateImageHash existingHashes newImages
  exact ⟨inv.dups, inv.gen, inv.nodup, inv.fresh, inv.sorted, inv.len⟩

end Detect

/-- A run on four images, the third repeating the first and the second already
stored: indices 1 and 2 are reported and two new hashes are returned. -/
theorem detectDuplicates_sample :
    (detectDuplicates sampleImageHash
        [jsString "a", jsString "b", jsString "a", jsString "c"] [jsString "b"]).duplicates
      = [1, 2] ∧
    (detectDuplicates sampleImageHash
        [jsString "a", jsString "b", jsString "a", jsString "c"] [jsString "b"]).newHashes
      = [jsString "a", jsString "c"] := by
  decide

end ImageLogic

namespace ChatService

open NaradMuni (JSString jsString jsStringLt)

/-! ## Sending a message -/

/-- The length-limit message, with the limit written out. -/
theorem messageLimit_text :
    "Message exceeds " ++ toString CHAT_CONSTANTS.MAX_MESSAGE_LENGTH ++ " characters."
      = "Message exceeds 500 characters." := by
  decide

/-- C21: `sendMessage` checks the length limit first.  A text longer than 500 code
units fails with `Message exceeds 500 characters.` and leaves the store as it was,
whatever the chat; a text of length 500 (or less) is not rejected by this check. -/
theorem sendMessage_length_limit (store : Store) (chatId senderId text autoId : JSString)
    (serverTime1 serverTime2 : Int) :
    (500 < text.length →
      sendMessage store chatId senderId text autoId serverTime1 serverTime2
        = (Except.error "Message exceeds 500 characters.", store)) ∧
    (text.length ≤ 500 →
      (sendMessage store chatId senderId text autoId serverTime1 serverTime2).1
        ≠ Except.error "Message exceeds 500 characters.") := by
  constructor
  · intro h
    unfold sendMessage
    rw [if_pos (by simpa [CHAT_CONSTANTS.MAX_MESSAGE_LENGTH] using h), messageLimit_text]
  · intro h
    have hle : ¬ text.length > CHAT_CONSTANTS.MAX_MESSAGE_LENGTH := by
      simpa [CHAT_CONSTANTS.MAX_MESSAGE_LENGTH] using h
    unfold sendMessage
    rw [if_neg hle]
    cases store.chats.find? fun c => decide (c.id = chatId) with
    | none =>
      intro hcontra
      have := Except.error.inj hcontra
      revert this
      decide
    | some chatData =>
      cases hact : chatData.isActive with
      | false =>
        simp only [hact, Bool.not_false, if_true]
        intro hcontra
        have := Except.error.inj hcontra
        revert this
        decide
      | true =>
        simp only [hact, Bool.not_true]
        intro hcontra
        cases hcontra

set_option maxRecDepth 100000 in
/-- A message of exactly 500 code units to an active chat is stored; one of 501 is
not. -/
theorem sendMessage_at_limit :
    (sendMessage oneChatStore (jsString "c1") (jsString "u-arjun")
        (List.replicate 500 97) (jsString "m1") 7 8).1 = Except.ok () ∧
    (sendMessage oneChatStore (jsString "c1") (jsString "u-arjun")
        (List.replicate 500 97) (jsString "m1") 7 8).2.messages.length = 1 ∧
    (sendMessage oneChatStore (jsString "c1") (jsString "u-arjun")
        (List.replicate 501 97) (jsString "m1") 7 8).2.messages.length = 0 := by
  exact ⟨rfl, by decide, by decide⟩

/-! ## Creating a chat -/

/-- The sorted pair does not depend on the order of the two ids. -/
theorem sortedIds_comm (userA userB : JSString) :
    sortedIds userA userB = sortedIds userB userA := by
  unfold sortedIds
  cases hba : jsStringLt userB userA with
  | true =>
    rw [NaradMuni.jsStringLt_asymm userB userA hba]
    simp
  | false =>
    cases hab : jsStringLt userA userB with
    | true => simp
    | false =>
      rw [NaradMuni.jsStringLt_total userA userB hab hba]

/-- The sorted pair holds the two ids, the second not below the first. -/
theorem sortedIds_sorted (userA userB : JSString) :
    ∃ x y, sortedIds userA userB = [x, y] ∧ jsStringLt y x = false ∧
      ((x = userA ∧ y = userB) ∨ (x = userB ∧ y = userA)) := by
  unfold sortedIds
  cases hba : jsStringLt userB userA with
  | true =>
    exact ⟨userB, userA, by simp, NaradMuni.jsStringLt_asymm userB userA hba,
      Or.inr ⟨rfl, rfl⟩⟩
  | false => exact ⟨userA, userB, by simp, hba, Or.inl ⟨rfl, rfl⟩⟩

/-- When the query finds a chat, its id is returned and nothing is written. -/
theorem createChatIfMutualInterest_of_found (store : Store) (userA userB autoId : JSString)
    (now1 now2 : Int) (first : ChatDoc) (others : List ChatDoc)
    (h : (store.chats.filter fun c => decide (c.userIds = sortedIds userA userB))
      = first :: others) :
    createChatIfMutualInterest store userA userB autoId now1 now2 = (first.id, store) := by
  unfold createChatIfMutualInterest
  simp only [h]

/-- When the query finds nothing, a chat with the sorted pair is added under the new
id, and its `chatId` field is then set. -/
theorem createChatIfMutualInterest_of_empty (store : Store) (userA userB autoId : JSString)
    (now1 now2 : Int)
    (h : (store.chats.filter fun c => decide (c.userIds = sortedIds userA userB)) = []) :
    createChatIfMutualInterest store userA userB autoId now1 now2 =
      (autoId, ⟨List.map (setChatId autoId)
        (store.chats ++ [newChat autoId (sortedIds userA userB) now1 now2]),
        store.messages⟩) := by
  unfold createChatIfMutualInterest
  simp only [h]

/-- Writing the `chatId` field changes neither the id nor the users of a chat. -/
theorem setChatId_fields (docId : JSString) (c : ChatDoc) :
    (setChatId docId c).id = c.id ∧ (setChatId docId c).userIds = c.userIds := by
  unfold setChatId
  split_ifs <;> exact ⟨rfl, rfl⟩

/-- Writing the `chatId` field does not change which chats a pair query matches. -/
theorem filter_userIds_map_chatId (chats : List ChatDoc) (sorted : List JSString)
    (autoId : JSString) :
    ((chats.map (setChatId autoId)).filter fun c => decide (c.userIds = sorted)) =
      (chats.filter fun c => decide (c.userIds = sorted)).map (setChatId autoId) := by
  induction chats with
  | nil => rfl
  | cons c cs ih =>
    simp only [List.map_cons, List.filter_cons, (setChatId_fields autoId c).2, ih]
    split_ifs <;> simp

/-- After a call, the query for the pair (in either order) finds a first chat, and it
is the one whose id the call returned. -/
theorem createChatIfMutualInterest_then_found (store : Store)
    (userA userB autoId : JSString) (now1 now2 : Int) :
    ∃ first others,
      ((createChatIfMutualInterest store userA userB autoId now1 now2).2.chats.filter
        fun c => decide (c.userIds = sortedIds userB userA)) = first :: others ∧
      first.id = (createChatIfMutualInterest store userA userB autoId now1 now2).1 ∧
      others.length + 1 = max 1 (chatsFor store userA userB) := by
  rw [← sortedIds_comm userA userB]
  cases hq : (store.chats.filter fun c => decide (c.userIds = sortedIds userA userB)) with
  | cons first others =>
    rw [createChatIfMutualInterest_of_found store userA userB autoId now1 now2 first others hq]
    refine ⟨first, others, hq, rfl, ?_⟩
    unfold chatsFor
    rw [hq]
    simp
  | nil =>
    rw [createChatIfMutualInterest_of_empty store userA userB autoId now1 now2 hq]
    simp only
    rw [filter_userIds_map_chatId, List.filter_append, hq]
    refine ⟨setChatId autoId (newChat autoId (sortedIds userA userB) now1 now2), [],
      ?_, ?_, ?_⟩
    · simp [newChat]
    · exact (setChatId_fields autoId _).1
    · unfold chatsFor
      rw [hq]
      simp

/-- A map that keeps `userIds` commutes with a pair query. -/
theorem filter_userIds_map (g : ChatDoc → ChatDoc) (hg : ∀ c, (g c).userIds = c.userIds)
    (chats : List ChatDoc) (ids : List JSString) :
    ((chats.map g).filter fun c => decide (c.userIds = ids)) =
      (chats.filter fun c => decide (c.userIds = ids)).map g := by
  induction chats with
  | nil => rfl
  | cons c cs ih =>
    simp only [List.map_cons, List.filter_cons, hg c, ih]
    split_ifs <;> simp

/-- A query with at most one match that contains `c` returns `c` alone. -/
theorem eq_singleton_of_mem_of_length_le_one {l : List ChatDoc} {c : ChatDoc}
    (hc : c ∈ l) (hl : l.length ≤ 1) : l = [c] := by
  match l, hc, hl with
  | [x], hc, _ =>
    rw [List.mem_singleton.mp hc]
  | _ :: _ :: _, _, hl =>
    simp only [List.length_cons] at hl
    omega

/-- `createChatIfMutualInterest` does not duplicate chats: a collection in which no
list of user ids occurs twice stays so. -/
theorem createChatIfMutualInterest_preserves_noDuplicateChats (store : Store)
    (userA userB autoId : JSString) (now1 now2 : Int) (h : NoDuplicateChats store) :
    NoDuplicateChats (createChatIfMutualInterest store userA userB autoId now1 now2).2 := by
  cases hq : (store.chats.filter fun c => decide (c.userIds = sortedIds userA userB)) with
  | cons first others =>
    rw [createChatIfMutualInterest_of_found store userA userB autoId now1 now2 first others hq]
    exact h
  | nil =>
    rw [createChatIfMutualInterest_of_empty store userA userB autoId now1 now2 hq]
    intro ids
    show ((List.map (setChatId autoId)
      (store.chats ++ [newChat autoId (sortedIds userA userB) now1 now2])).filter
        fun c => decide (c.userIds = ids)).length ≤ 1
    rw [filter_userIds_map_chatId, List.length_map, List.filter_append, List.length_append]
    by_cases hids : sortedIds userA userB = ids
    · rw [← hids, hq]
      simp [newChat]
    · have hnew : ([newChat autoId (sortedIds userA userB) now1 now2].filter
          fun c => decide (c.userIds = ids)) = [] := by
        simp [newChat, hids]
      rw [hnew]
      exact h ids

/-- `sendMessage` touches no `userIds`, so it keeps the collection free of duplicates. -/
theorem sendMessage_preserves_noDuplicateChats (store : Store)
    (chatId senderId text autoId : JSString) (serverTime1 serverTime2 : Int)
    (h : NoDuplicateChats store) :
    NoDuplicateChats
      (sendMessage store chatId senderId text autoId serverTime1 serverTime2).2 := by
  unfold sendMessage
  split_ifs with hlen
  · exact h
  · cases store.chats.find? fun c => decide (c.id = chatId) with
    | none => exact h
    | some chatData =>
      cases hact : chatData.isActive with
      | false =>
        simp only [hact, Bool.not_false, if_true]
        exact h
      | true =>
        simp only [hact, Bool.not_true]
        intro ids
        show ((List.map _ store.chats).filter
          fun (c : ChatDoc) => decide (c.userIds = ids)).length ≤ 1
        rw [filter_userIds_map _ (by
          intro c
          split_ifs <;> rfl), List.length_map]
        exact h ids

/-- Every store the service builds from empty collections is free of duplicates. -/
theorem reachable_noDuplicateChats {store : Store} (h : Reachable store) :
    NoDuplicateChats store := by
  induction h with
  | empty =>
    intro ids
    simp
  | create store userA userB autoId now1 now2 _ ih =>
    exact createChatIfMutualInterest_preserves_noDuplicateChats store userA userB autoId
      now1 now2 ih
  | send store chatId senderId text autoId serverTime1 serverTime2 _ ih =>
    exact sendMessage_preserves_noDuplicateChats store chatId senderId text autoId
      serverTime1 serverTime2 ih

/-- On a collection seeded with two chats for one pair, which the service itself never
builds, both calls return the first chat's id and neither adds nor removes a chat. -/
theorem createChatIfMutualInterest_on_doubledStore :
    ¬ NoDuplicateChats doubledStore ∧
    (createChatIfMutualInterest doubledStore (jsString "u-arjun") (jsString "u-meera")
        (jsString "c3") 5 5).1 = jsString "c1" ∧
    (createChatIfMutualInterest
        (createChatIfMutualInterest doubledStore (jsString "u-arjun") (jsString "u-meera")
          (jsString "c3") 5 5).2
        (jsString "u-meera") (jsString "u-arjun") (jsString "c4") 6 6).1 = jsString "c1" ∧
    chatsFor
        (createChatIfMutualInterest
          (createChatIfMutualInterest doubledStore (jsString "u-arjun") (jsString "u-meera")
            (jsString "c3") 5 5).2
          (jsString "u-meera") (jsString "u-arjun") (jsString "c4") 6 6).2
        (jsString "u-arjun") (jsString "u-meera") = 2 := by
  refine ⟨?_, by decide, by decide, by decide⟩
  intro h
  have := h [jsString "u-arjun", jsString "u-meera"]
  revert this
  decide

/-- C24: `createChatIfMutualInterest` does not duplicate chats and is insensitive to
argument order.  The ids queried for and stored are the two ids in sorted order; when
the query matches, the id of the first match is returned and nothing is written; when
it does not, one chat with the sorted pair is added under the new id.  On a collection
without duplicates (as every collection the service builds is) the result is again
without duplicates, an existing chat of the pair has its id returned, and calling with
`(userA, userB)` and then `(userB, userA)` returns the same id and leaves exactly one
chat for the pair. -/
theorem createChatIfMutualInterest_no_duplicates (store : Store)
    (userA userB autoId1 autoId2 : JSString) (now1 now2 now3 now4 : Int) :
    sortedIds userA userB = sortedIds userB userA ∧
    (∃ x y, sortedIds userA userB = [x, y] ∧ jsStringLt y x = false ∧
      ((x = userA ∧ y = userB) ∨ (x = userB ∧ y = userA))) ∧
    (∀ first others,
      (store.chats.filter fun c => decide (c.userIds = sortedIds userA userB))
        = first :: others →
      createChatIfMutualInterest store userA userB autoId1 now1 now2 = (first.id, store)) ∧
    ((store.chats.filter fun c => decide (c.userIds = sortedIds userA userB)) = [] →
      createChatIfMutualInterest store userA userB autoId1 now1 now2 =
        (autoId1, ⟨List.map (setChatId autoId1)
          (store.chats ++ [newChat autoId1 (sortedIds userA userB) now1 now2]),
          store.messages⟩)) ∧
    (createChatIfMutualInterest
        (createChatIfMutualInterest store userA userB autoId1 now1 now2).2
        userB userA autoId2 now3 now4).1
      = (createChatIfMutualInterest store userA userB autoId1 now1 now2).1 ∧
    (createChatIfMutualInterest
        (createChatIfMutualInterest store userA userB autoId1 now1 now2).2
        userB userA autoId2 now3 now4).2
      = (createChatIfMutualInterest store userA userB autoId1 now1 now2).2 ∧
    (Reachable store → NoDuplicateChats store) ∧
    (NoDuplicateChats store →
      NoDuplicateChats (createChatIfMutualInterest store userA userB autoId1 now1 now2).2 ∧
      (∀ c ∈ store.chats, c.userIds = sortedIds userA userB →
        createChatIfMutualInterest store userA userB autoId1 now1 now2 = (c.id, store)) ∧
      chatsFor (createChatIfMutualInterest
          (createChatIfMutualInterest store userA userB autoId1 now1 now2).2
          userB userA autoId2 now3 now4).2 userA userB = 1) := by
  obtain ⟨first, others, hq, hid, hlen⟩ :=
    createChatIfMutualInterest_then_found store userA userB autoId1 now1 now2
  have hsecond := createChatIfMutualInterest_of_found
    (createChatIfMutualInterest store userA userB autoId1 now1 now2).2
    userB userA autoId2 now3 now4 first others hq
  have hcount : chatsFor (createChatIfMutualInterest store userA userB autoId1 now1 now2).2
      userA userB = max 1 (chatsFor store userA userB) := by
    have hflip : chatsFor (createChatIfMutualInterest store userA userB autoId1 now1 now2).2
        userA userB =
        ((createChatIfMutualInterest store userA userB autoId1 now1 now2).2.chats.filter
          fun c => decide (c.userIds = sortedIds userB userA)).length := by
      unfold chatsFor
      rw [sortedIds_comm userA userB]
    rw [hflip, hq, List.length_cons]
    exact hlen
  refine ⟨sortedIds_comm userA userB, sortedIds_sorted userA userB, ?_, ?_, ?_, ?_,
    reachable_noDuplicateChats, ?_⟩
  · intro c0 rest hq0
    exact createChatIfMutualInterest_of_found store userA userB autoId1 now1 now2 c0 rest hq0
  · intro hq0
    exact createChatIfMutualInterest_of_empty store userA userB autoId1 now1 now2 hq0
  · rw [hsecond, hid]
  · rw [hsecond]
  · intro hnd
    refine ⟨createChatIfMutualInterest_preserves_noDuplicateChats store userA userB autoId1
      now1 now2 hnd, ?_, ?_⟩
    · intro c hc hids
      have hmem : c ∈ store.chats.filter
          fun c => decide (c.userIds = sortedIds userA userB) :=
        List.mem_filter.mpr ⟨hc, by simpa using hids⟩
      have hone := eq_singleton_of_mem_of_length_le_one hmem (hnd (sortedIds userA userB))
      exact createChatIfMutualInterest_of_found store userA userB autoId1 now1 now2 c [] hone
    · rw [hsecond, hcount]
      have := hnd (sortedIds userA userB)
      unfold chatsFor
      omega

/-- C24 on stores the service builds: from empty collections, a first call creates the
chat and the call with the ids swapped returns its id, one chat in all. -/
theorem createChatIfMutualInterest_from_empty :
    Reachable { chats := [], messages := [] } ∧
    (createChatIfMutualInterest { chats := [], messages := [] } (jsString "u-meera")
        (jsString "u-arjun") (jsString "c1") 5 5).1 = jsString "c1" ∧
    (createChatIfMutualInterest
        (createChatIfMutualInterest { chats := [], messages := [] } (jsString "u-meera")
          (jsString "u-arjun") (jsString "c1") 5 5).2
        (jsString "u-arjun") (jsString "u-meera") (jsString "c2") 6 6).1 = jsString "c1" ∧
    ((createChatIfMutualInterest
        (createChatIfMutualInterest { chats := [], messages := [] } (jsString "u-meera")
          (jsString "u-arjun") (jsString "c1") 5 5).2
        (jsString "u-arjun") (jsString "u-meera") (jsString "c2") 6 6).2.chats.map
        fun c => (c.id, c.chatId, c.userIds))
      = [(jsString "c1", some (jsString "c1"), [jsString "u-arjun", jsString "u-meera"])] :=
  ⟨Reachable.empty, by decide, by decide, by decide⟩

end ChatService

namespace AdminFunctions

open NaradMuni (JSString jsString)

/-! ## The role check -/

/-- The role check against `'primary_admin'`, case by case: no `auth` is
`unauthenticated`; an absent or empty role is denied; the role `primary_admin` gets
the caller's uid; every other role is denied. -/
theorem verifyAdminRole_primary_admin (context : CallableContext) :
    (context.auth = none →
      verifyAdminRole context (jsString "primary_admin")
        = Except.error { code := "unauthenticated", message := "User must be logged in." }) ∧
    (∀ auth, context.auth = some auth →
      (auth.token.role = none ∨ auth.token.role = some [] →
        verifyAdminRole context (jsString "primary_admin")
          = Except.error { code := "permission-denied", message := "No admin role found." }) ∧
      (auth.token.role = some (jsString "primary_admin") →
        verifyAdminRole context (jsString "primary_admin") = Except.ok auth.uid) ∧
      (∀ role, auth.token.role = some role → role ≠ [] →
        role ≠ jsString "primary_admin" →
        verifyAdminRole context (jsString "primary_admin")
          = Except.error { code := "permission-denied",
                           message := "Requires Primary Admin role." })) := by
  constructor
  · intro h
    simp only [verifyAdminRole, h]
  · intro auth h
    refine ⟨?_, ?_, ?_⟩
    · rintro (hr | hr)
      · simp only [verifyAdminRole, h, hr]
      · simp only [verifyAdminRole, h, hr, if_true]
    · intro hr
      have hne : jsString "primary_admin" ≠ [] := by decide
      simp only [verifyAdminRole, h, hr, if_neg hne]
      rw [if_neg]
      rintro ⟨_, hcontra⟩
      exact hcontra rfl
    · intro role hr hne hnp
      simp only [verifyAdminRole, h, hr, if_neg hne]
      rw [if_pos ⟨trivial, hnp⟩]

/-- The role check against `'any'` lets every authenticated caller with a non-empty
role through, whatever the role. -/
theorem verifyAdminRole_any (context : CallableContext) (auth : Auth) (role : JSString)
    (h : context.auth = some auth) (hr : auth.token.role = some role) (hne : role ≠ []) :
    verifyAdminRole context (jsString "any") = Except.ok auth.uid := by
  simp only [verifyAdminRole, h, hr, if_neg hne]
  rw [if_neg]
  rintro ⟨hany, _⟩
  revert hany
  decide

/-- C22, the code at the failing input: for an authenticated caller whose token role
is `super_admin`, `verifyAdminRole(context, 'primary_admin')` throws
`permission-denied` (`Requires Primary Admin role.`) instead of returning the uid;
only `primary_admin` passes. -/
theorem verifyAdminRole_rejects_super_admin :
    verifyAdminRole (callerWithRole "root-1" "super_admin") (jsString "primary_admin")
      = Except.error { code := "permission-denied",
                       message := "Requires Primary Admin role." } ∧
    verifyAdminRole (callerWithRole "root-1" "primary_admin") (jsString "primary_admin")
      = Except.ok (jsString "root-1") := by
  constructor
  · exact ((verifyAdminRole_primary_admin _).2 _ rfl).2.2 (jsString "super_admin") rfl
      (by decide) (by decide)
  · exact ((verifyAdminRole_primary_admin _).2 _ rfl).2.1 rfl

/-! ## Moderation callables -/

/-- C23, the code at the failing input: after two signups, `mallory` holds the default
role `user`; `verifyAdminRole(context, 'any')` returns her uid, and her call of
`approveUserProfile` on `victim` succeeds and marks that user document approved. -/
theorem approveUserProfile_by_default_user :
    (contextOf twoSignups (jsString "mallory")).auth.map (fun a => a.token.role)
      = some (some (jsString "user")) ∧
    verifyAdminRole (contextOf twoSignups (jsString "mallory")) (jsString "any")
      = Except.ok (jsString "mallory") ∧
    (approveUserProfile twoSignups (jsString "victim")
        (contextOf twoSignups (jsString "mallory")) 3 4).1 = Except.ok true ∧
    (twoSignups.users.map fun u => (u.uid, u.approvalStatus, u.approvedBy))
      = [(jsString "mallory", jsString "pending", none),
         (jsString "victim", jsString "pending", none)] ∧
    ((approveUserProfile twoSignups (jsString "victim")
        (contextOf twoSignups (jsString "mallory")) 3 4).2.users.map
        fun u => (u.uid, u.approvalStatus, u.approvedBy))
      = [(jsString "mallory", jsString "pending", none),
         (jsString "victim", jsString "approved", some (jsString "mallory"))] := by
  refine ⟨by decide, rfl, rfl, by decide, by decide⟩

/-- The same holds of the other two moderation callables: a caller with the default
role `user` rejects and suspends another user. -/
theorem reject_and_suspend_by_default_user :
    ((rejectUserProfile twoSignups (jsString "victim") (jsString "spam")
        (contextOf twoSignups (jsString "mallory")) 3 4).2.users.map
        fun u => (u.uid, u.approvalStatus, u.rejectedBy))
      = [(jsString "mallory", jsString "pending", none),
         (jsString "victim", jsString "rejected", some (jsString "mallory"))] ∧
    ((suspendUser twoSignups (jsString "victim") 24
        (contextOf twoSignups (jsString "mallory")) 3 4).2.users.map
        fun u => (u.uid, u.isSuspended, u.suspendedBy))
      = [(jsString "mallory", none, none),
         (jsString "victim", some true, some (jsString "mallory"))] := by
  refine ⟨by decide, by decide⟩

/-- A caller without any role is turned away by the moderation callables and nothing
is written. -/
theorem approveUserProfile_without_role (db : Db) (userId : JSString) (auth : Auth)
    (now1 now2 : Int) (hr : auth.token.role = none) :
    approveUserProfile db userId { auth := some auth } now1 now2
      = (Except.error { code := "permission-denied", message := "No admin role found." },
         db) := by
  simp only [approveUserProfile, verifyAdminRole, hr]

end AdminFunctions
